import Mathlib

/-!
A verification development for the damage-driven repaint pipeline of the
i.MX G2D renderer (`libweston/renderer-g2d/g2d-renderer.c`).

The C code is shallowly embedded: machine integers become `Int` (no
arithmetic in the relevant paths overflows 32 bits at the inputs
considered), C `float` arithmetic (only used for the clip scale factors
and vertex bounds) is modelled with exact rationals `ℚ` together with
`Int.floor` for `floorf`, and the external g2d hardware service, which
only receives commands, is modelled by emitting a list of draw calls.
Functions from libraries outside this file (pixman, the g2d blitter
itself, the vertex clipper of `shared/vertex-clipping.c`) are treated as
oracles/parameters at the interface boundary.
-/

namespace G2d

/-- `enum g2d_rotation` of the g2d API: the four hardware rotations plus
the two flips. -/
inductive G2dRotation where
  | rot0
  | rot90
  | rot180
  | rot270
  | flipH
  | flipV
deriving DecidableEq, Repr

/-- `g2dRECT` (left, top, right, bottom). -/
structure G2dRect where
  left : Int
  top : Int
  right : Int
  bottom : Int
deriving DecidableEq, Repr

/-! ### enum g2d_rotation_angle (g2d-renderer.c lines 69-83) -/

def G2D_ROTATION_ANGLE_0 : Nat := 0x10
def G2D_ROTATION_ANGLE_POSITIVE_90 : Nat := 0x20
def G2D_ROTATION_ANGLE_POSITIVE_180 : Nat := 0x40
def G2D_ROTATION_ANGLE_POSITIVE_270 : Nat := 0x80
def G2D_ROTATION_ANGLE_NEGATIVE_90 : Nat := 0x08
def G2D_ROTATION_ANGLE_NEGATIVE_180 : Nat := 0x04
def G2D_ROTATION_ANGLE_NEGATIVE_270 : Nat := 0x02

/-- The `switch(angle)` of `convert_transform_to_rot`: maps a shifted
angle bit pattern to a hardware rotation; every pattern that is not one
of the named angle constants falls to the `default:` case, `G2D_ROTATION_0`. -/
def g2d_rot_of_angle (angle : Nat) : G2dRotation :=
  if angle = G2D_ROTATION_ANGLE_0 then .rot0
  else if angle = G2D_ROTATION_ANGLE_POSITIVE_270 ∨
          angle = G2D_ROTATION_ANGLE_NEGATIVE_90 then .rot90
  else if angle = G2D_ROTATION_ANGLE_POSITIVE_90 ∨
          angle = G2D_ROTATION_ANGLE_NEGATIVE_270 then .rot270
  else if angle = G2D_ROTATION_ANGLE_POSITIVE_180 ∨
          angle = G2D_ROTATION_ANGLE_NEGATIVE_180 then .rot180
  else .rot0

/-- The named bit patterns that have an explicit `case` label in the
`switch` of `convert_transform_to_rot`. -/
def knownAngleValues : List Nat :=
  [G2D_ROTATION_ANGLE_0,
   G2D_ROTATION_ANGLE_POSITIVE_90, G2D_ROTATION_ANGLE_POSITIVE_180,
   G2D_ROTATION_ANGLE_POSITIVE_270,
   G2D_ROTATION_ANGLE_NEGATIVE_90, G2D_ROTATION_ANGLE_NEGATIVE_180,
   G2D_ROTATION_ANGLE_NEGATIVE_270]

/-- `convert_transform_to_rot` (g2d-renderer.c lines 324-354).
`angle` is a `uint8_t`, so the left shift truncates to 8 bits before the
right shift is applied. -/
def convert_transform_to_rot (view_transform output_transform : Nat) : G2dRotation :=
  let angle := (G2D_ROTATION_ANGLE_0 <<< view_transform) % 256
  let angle := angle >>> output_transform
  g2d_rot_of_angle angle

/-- `convert_size_by_view_transform` (g2d-renderer.c lines 302-322):
width/height swap under 90/270 transforms (ordinals as in
`WL_OUTPUT_TRANSFORM_*`: 1 = 90, 3 = 270, 5 = FLIPPED_90, 7 = FLIPPED_270). -/
def convert_size_by_view_transform (width height : Int) (transform : Nat) :
    Int × Int :=
  if transform = 1 ∨ transform = 3 ∨ transform = 5 ∨ transform = 7 then
    (height, width)
  else
    (width, height)

/-- `calculate_rect_with_transform` (g2d-renderer.c lines 271-300):
re-expresses a rectangle in the destination framebuffer's orientation.
Ordinals: 0 = NORMAL, 1 = 90, 2 = 180, 3 = 270; all others take the
`default:` branch. -/
def calculate_rect_with_transform (surfaceWidth surfaceHeight : Int)
    (transform : Nat) (rect : G2dRect) : G2dRect :=
  if transform = 3 then
    let right := surfaceWidth - rect.top
    let left := right - (rect.bottom - rect.top)
    let top := rect.left
    let bottom := top + (rect.right - rect.left)
    ⟨left, top, right, bottom⟩
  else if transform = 1 then
    let left := rect.top
    let right := left + (rect.bottom - rect.top)
    let bottom := surfaceHeight - rect.left
    let top := bottom - (rect.right - rect.left)
    ⟨left, top, right, bottom⟩
  else if transform = 2 then
    let left := surfaceWidth - rect.right
    let right := left + (rect.right - rect.left)
    let bottom := surfaceHeight - rect.top
    let top := bottom - (rect.bottom - rect.top)
    ⟨left, top, right, bottom⟩
  else
    rect

/-! ### g2d_clip_rects (g2d-renderer.c lines 509-654)

Each rotation case is a chain of four conditional edge clamps with early
returns; the chain is split into one definition per step so that every
early `return` is an explicit result.  `floorf` on the product of an
integer difference and a `float` scale factor is modelled as `Int.floor`
of the exact rational product. -/

/-- Rotation 0, fourth clamp (`dstrect->bottom > dstHeight`). -/
def clipRot0Bottom (src dst : G2dRect) (dstHeight : Int) (scale_v : ℚ) :
    G2dRect × G2dRect :=
  if dst.bottom > dstHeight then
    let src' : G2dRect :=
      { src with bottom := src.bottom - ⌊((dst.bottom - dstHeight : Int) : ℚ) * scale_v⌋ }
    let dst' : G2dRect := { dst with bottom := dstHeight }
    (src', dst')
  else (src, dst)

/-- Rotation 0, third clamp (`dstrect->top < 0`). -/
def clipRot0Top (src dst : G2dRect) (dstHeight : Int) (scale_v : ℚ) :
    G2dRect × G2dRect :=
  if dst.top < 0 then
    let src' : G2dRect :=
      { src with top := src.top + ⌊((-dst.top : Int) : ℚ) * scale_v⌋ }
    let dst' : G2dRect := { dst with top := 0 }
    if src'.top ≥ src'.bottom then (src', dst')
    else clipRot0Bottom src' dst' dstHeight scale_v
  else clipRot0Bottom src dst dstHeight scale_v

/-- Rotation 0, second clamp (`dstrect->right > dstWidth`). -/
def clipRot0Right (src dst : G2dRect) (dstWidth dstHeight : Int)
    (scale_h scale_v : ℚ) : G2dRect × G2dRect :=
  if dst.right > dstWidth then
    let src' : G2dRect :=
      { src with right := src.right - ⌊((dst.right - dstWidth : Int) : ℚ) * scale_h⌋ }
    let dst' : G2dRect := { dst with right := dstWidth }
    if src'.right ≤ src'.left then (src', dst')
    else clipRot0Top src' dst' dstHeight scale_v
  else clipRot0Top src dst dstHeight scale_v

/-- Rotation 0, first clamp (`dstrect->left < 0`). -/
def clipRot0 (src dst : G2dRect) (dstWidth dstHeight : Int)
    (scale_h scale_v : ℚ) : G2dRect × G2dRect :=
  if dst.left < 0 then
    let src' : G2dRect :=
      { src with left := src.left + ⌊((-dst.left : Int) : ℚ) * scale_h⌋ }
    let dst' : G2dRect := { dst with left := 0 }
    if src'.left ≥ src'.right then (src', dst')
    else clipRot0Right src' dst' dstWidth dstHeight scale_h scale_v
  else clipRot0Right src dst dstWidth dstHeight scale_h scale_v

/-- Rotation 270, fourth clamp (`dstrect->right > dstWidth`). -/
def clipRot270Right (src dst : G2dRect) (dstWidth : Int) (scale_h : ℚ) :
    G2dRect × G2dRect :=
  if dst.right > dstWidth then
    let src' : G2dRect :=
      { src with top := src.top + ⌊((dst.right - dstWidth : Int) : ℚ) * scale_h⌋ }
    let dst' : G2dRect := { dst with right := dstWidth }
    (src', dst')
  else (src, dst)

/-- Rotation 270, third clamp (`dstrect->top < 0`). -/
def clipRot270Top (src dst : G2dRect) (dstWidth : Int) (scale_h scale_v : ℚ) :
    G2dRect × G2dRect :=
  if dst.top < 0 then
    let src' : G2dRect :=
      { src with left := src.left + ⌊((-dst.top : Int) : ℚ) * scale_v⌋ }
    let dst' : G2dRect := { dst with top := 0 }
    if src'.left > src'.right then (src', dst')
    else clipRot270Right src' dst' dstWidth scale_h
  else clipRot270Right src dst dstWidth scale_h

/-- Rotation 270, second clamp (`dstrect->bottom > dstHeight`). -/
def clipRot270Bottom (src dst : G2dRect) (dstWidth dstHeight : Int)
    (scale_h scale_v : ℚ) : G2dRect × G2dRect :=
  if dst.bottom > dstHeight then
    let src' : G2dRect :=
      { src with right := src.right - ⌊((dst.bottom - dstHeight : Int) : ℚ) * scale_v⌋ }
    let dst' : G2dRect := { dst with bottom := dstHeight }
    if src'.right < 0 then (src', dst')
    else clipRot270Top src' dst' dstWidth scale_h scale_v
  else clipRot270Top src dst dstWidth scale_h scale_v

/-- Rotation 270, first clamp (`dstrect->left < 0`). -/
def clipRot270 (src dst : G2dRect) (dstWidth dstHeight : Int)
    (scale_h scale_v : ℚ) : G2dRect × G2dRect :=
  if dst.left < 0 then
    let src' : G2dRect :=
      { src with bottom := src.bottom - ⌊((-dst.left : Int) : ℚ) * scale_h⌋ }
    let dst' : G2dRect := { dst with left := 0 }
    if src'.top ≥ src'.bottom then (src', dst')
    else clipRot270Bottom src' dst' dstWidth dstHeight scale_h scale_v
  else clipRot270Bottom src dst dstWidth dstHeight scale_h scale_v

/-- Rotation 90, fourth clamp (`dstrect->right > dstWidth`). -/
def clipRot90Right (src dst : G2dRect) (dstWidth : Int) (scale_h : ℚ) :
    G2dRect × G2dRect :=
  if dst.right > dstWidth then
    let src' : G2dRect :=
      { src with bottom := src.bottom - ⌊((dst.right - dstWidth : Int) : ℚ) * scale_h⌋ }
    let dst' : G2dRect := { dst with right := dstWidth }
    (src', dst')
  else (src, dst)

/-- Rotation 90, third clamp (`dstrect->bottom > dstHeight`). -/
def clipRot90Bottom (src dst : G2dRect) (dstWidth dstHeight : Int)
    (scale_h scale_v : ℚ) : G2dRect × G2dRect :=
  if dst.bottom > dstHeight then
    let src' : G2dRect :=
      { src with left := src.left + ⌊((dst.bottom - dstHeight : Int) : ℚ) * scale_v⌋ }
    let dst' : G2dRect := { dst with bottom := dstHeight }
    if src'.right ≤ src'.left then (src', dst')
    else clipRot90Right src' dst' dstWidth scale_h
  else clipRot90Right src dst dstWidth scale_h

/-- Rotation 90, second clamp (`dstrect->top < 0`). -/
def clipRot90Top (src dst : G2dRect) (dstWidth dstHeight : Int)
    (scale_h scale_v : ℚ) : G2dRect × G2dRect :=
  if dst.top < 0 then
    let src' : G2dRect :=
      { src with right := src.right - ⌊((-dst.top : Int) : ℚ) * scale_v⌋ }
    let dst' : G2dRect := { dst with top := 0 }
    if src'.left ≥ src'.right then (src', dst')
    else clipRot90Bottom src' dst' dstWidth dstHeight scale_h scale_v
  else clipRot90Bottom src dst dstWidth dstHeight scale_h scale_v

/-- Rotation 90, first clamp (`dstrect->left < 0`). -/
def clipRot90 (src dst : G2dRect) (dstWidth dstHeight : Int)
    (scale_h scale_v : ℚ) : G2dRect × G2dRect :=
  if dst.left < 0 then
    let src' : G2dRect :=
      { src with top := src.top + ⌊((-dst.left : Int) : ℚ) * scale_h⌋ }
    let dst' : G2dRect := { dst with left := 0 }
    if src'.top ≥ src'.bottom then (src', dst')
    else clipRot90Top src' dst' dstWidth dstHeight scale_h scale_v
  else clipRot90Top src dst dstWidth dstHeight scale_h scale_v

/-- Rotation 180, fourth clamp (`dstrect->bottom > dstHeight`). -/
def clipRot180Bottom (src dst : G2dRect) (dstHeight : Int) (scale_v : ℚ) :
    G2dRect × G2dRect :=
  if dst.bottom > dstHeight then
    let src' : G2dRect :=
      { src with top := src.top + ⌊((dst.bottom - dstHeight : Int) : ℚ) * scale_v⌋ }
    let dst' : G2dRect := { dst with bottom := dstHeight }
    (src', dst')
  else (src, dst)

/-- Rotation 180, third clamp (`dstrect->top < 0`). -/
def clipRot180Top (src dst : G2dRect) (dstHeight : Int) (scale_v : ℚ) :
    G2dRect × G2dRect :=
  if dst.top < 0 then
    let src' : G2dRect :=
      { src with bottom := src.bottom - ⌊((-dst.top : Int) : ℚ) * scale_v⌋ }
    let dst' : G2dRect := { dst with top := 0 }
    if src'.top ≥ src'.bottom then (src', dst')
    else clipRot180Bottom src' dst' dstHeight scale_v
  else clipRot180Bottom src dst dstHeight scale_v

/-- Rotation 180, second clamp (`dstrect->right > dstWidth`). -/
def clipRot180Right (src dst : G2dRect) (dstWidth dstHeight : Int)
    (scale_h scale_v : ℚ) : G2dRect × G2dRect :=
  if dst.right > dstWidth then
    let src' : G2dRect :=
      { src with left := src.left + ⌊((dst.right - dstWidth : Int) : ℚ) * scale_h⌋ }
    let dst' : G2dRect := { dst with right := dstWidth }
    if src'.right ≤ src'.left then (src', dst')
    else clipRot180Top src' dst' dstHeight scale_v
  else clipRot180Top src dst dstHeight scale_v

/-- Rotation 180, first clamp (`dstrect->left < 0`). -/
def clipRot180 (src dst : G2dRect) (dstWidth dstHeight : Int)
    (scale_h scale_v : ℚ) : G2dRect × G2dRect :=
  if dst.left < 0 then
    let src' : G2dRect :=
      { src with right := src.right - ⌊((-dst.left : Int) : ℚ) * scale_h⌋ }
    let dst' : G2dRect := { dst with left := 0 }
    if src'.left ≥ src'.right then (src', dst')
    else clipRot180Right src' dst' dstWidth dstHeight scale_h scale_v
  else clipRot180Right src dst dstWidth dstHeight scale_h scale_v

/-- `g2d_clip_rects` (g2d-renderer.c lines 509-654): clamps the
destination rectangle to `[0,dstWidth) × [0,dstHeight)` and shrinks the
source rectangle proportionally, with a rotation-dependent edge mapping.
Returns the mutated `(srcRect, dstrect)` pair.  The two flip values take
the `default:` branch and change nothing. -/
def g2d_clip_rects (transform : G2dRotation) (srcRect dstrect : G2dRect)
    (dstWidth dstHeight : Int) : G2dRect × G2dRect :=
  let srcWidth := srcRect.right - srcRect.left
  let srcHeight := srcRect.bottom - srcRect.top
  let scale_h : ℚ :=
    if transform = .rot90 ∨ transform = .rot270 then
      (srcHeight : ℚ) / ((dstrect.right - dstrect.left : Int) : ℚ)
    else
      (srcWidth : ℚ) / ((dstrect.right - dstrect.left : Int) : ℚ)
  let scale_v : ℚ :=
    if transform = .rot90 ∨ transform = .rot270 then
      (srcWidth : ℚ) / ((dstrect.bottom - dstrect.top : Int) : ℚ)
    else
      (srcHeight : ℚ) / ((dstrect.bottom - dstrect.top : Int) : ℚ)
  match transform with
  | .rot0 => clipRot0 srcRect dstrect dstWidth dstHeight scale_h scale_v
  | .rot270 => clipRot270 srcRect dstrect dstWidth dstHeight scale_h scale_v
  | .rot90 => clipRot90 srcRect dstrect dstWidth dstHeight scale_h scale_v
  | .rot180 => clipRot180 srcRect dstrect dstWidth dstHeight scale_h scale_v
  | _ => (srcRect, dstrect)

/-- The set of pixels covered by a `g2dRECT` (half-open on right/bottom). -/
def rectPixelSet (r : G2dRect) : Set (Int × Int) :=
  { p | r.left ≤ p.1 ∧ p.1 < r.right ∧ r.top ≤ p.2 ∧ p.2 < r.bottom }

/-- The pixel area of a `g2dRECT` (0 for degenerate/inverted rectangles). -/
def rectArea (r : G2dRect) : Int :=
  max 0 (r.right - r.left) * max 0 (r.bottom - r.top)

/-! ### Damage ring (g2d-renderer.c lines 115-123, 1122-1144, 1182-1224)

A `pixman_region32_t` is semantically a finite set of integer pixels;
regions are modelled as `Finset (Int × Int)` with `∪` for
`pixman_region32_union` and `copy` as replacement. -/

/-- A pixman region, modelled semantically as its finite set of pixels. -/
abbrev Region := Finset (Int × Int)

/-- `struct g2d_output_state`: the damage-tracking fields.
`BUFFER_DAMAGE_COUNT = 3`. -/
structure G2dOutputState where
  current_buffer : Nat
  buffer_damage : Fin 3 → Region

/-- Array index reduced mod the ring size. -/
def slotOf (n : Nat) : Fin 3 := ⟨n % 3, Nat.mod_lt _ (by omega)⟩

/-- Output state as created by `g2d_drm_renderer_output_create`
(`zalloc` + `pixman_region32_init` on every slot): `current_buffer = 0`
and every damage slot empty. -/
def initOutputState : G2dOutputState := ⟨0, fun _ => ∅⟩

/-- The ring slot for array index `i` (indices are always reduced mod 3). -/
def ringSlot (go : G2dOutputState) (i : Nat) : Region :=
  go.buffer_damage (slotOf i)

/-- `output_get_damage` (lines 1122-1133): union of all three ring slots
(into an initially empty region). -/
def output_get_damage (go : G2dOutputState) : Region :=
  ringSlot go 0 ∪ ringSlot go 1 ∪ ringSlot go 2

/-- `output_rotate_damage` (lines 1135-1144): advance `current_buffer`
mod 3, then overwrite the new current slot with this frame's output
damage. -/
def output_rotate_damage (go : G2dOutputState) (output_damage : Region) :
    G2dOutputState :=
  let cb := (go.current_buffer + 1) % 3
  ⟨cb, Function.update go.buffer_damage (slotOf cb) output_damage⟩

/-- The total damage computed by `g2d_renderer_repaint_output`
(lines 1195-1200): union of the pre-rotate ring contents and this
frame's output damage; this is what `repaint_views` receives. -/
def repaint_total_damage (go : G2dOutputState) (output_damage : Region) :
    Region :=
  output_get_damage go ∪ output_damage

/-- State of the damage ring after `n` repaints with per-frame output
damage `d 1, d 2, ..., d n` (frame numbers are 1-based; `d 0` is unused). -/
def stateAfterFrames (d : Nat → Region) : Nat → G2dOutputState
  | 0 => initOutputState
  | n + 1 => output_rotate_damage (stateAfterFrames d n) (d (n + 1))

/-- The accumulated damage used for frame `n`'s repaint (`n ≥ 1`). -/
def totalDamageAt (d : Nat → Region) (n : Nat) : Region :=
  repaint_total_damage (stateAfterFrames d (n - 1)) (d n)

/-- Per-frame damage with frame 0 (before the first repaint) read as
empty; used to state the closed form of the ring contents. -/
def dTrunc (d : Nat → Region) (k : Nat) : Region :=
  if k = 0 then ∅ else d k

/-! ### repaint_region (g2d-renderer.c lines 703-849)

The view, surface-state, and output fields that `repaint_region` reads
are collected into structures.  `calculate_edges` (lines 203-268) calls
the external vertex clipper of `shared/vertex-clipping.c` and the view's
coordinate transform, neither of which is part of this file; it is
therefore passed in as an oracle producing the clipped polygon for a
damage-rect × surface-rect pair.  Draw calls issued to the g2d service
are collected in order. -/

/-- `pixman_box32_t`. -/
structure PixBox where
  x1 : Int
  y1 : Int
  x2 : Int
  y2 : Int
deriving DecidableEq, Repr

/-- `enum weston_buffer_type` values relevant here. -/
inductive WestonBufferType where
  | shm
  | rendererOpaque
  | solid
  | dmabuf
deriving DecidableEq, Repr

/-- DRM fourcc for ARGB8888. -/
def DRM_FORMAT_ARGB8888 : Nat := 0x34325241

/-- The fields of `struct weston_view` (and its surface's
`buffer_viewport`) read by `repaint_region`.  The `wl_fixed_to_int`
conversions of the viewport source box are already applied.
`transform_enabled` is only consulted inside the external
`calculate_edges` path and is carried for completeness. -/
structure ViewState where
  alpha : ℚ
  transform_enabled : Bool
  bounding_rects : List PixBox
  view_transform : Nat
  src_x : Int
  src_y : Int
  src_width_raw : Int
  src_height_raw : Int
  scale : Int

/-- The fields of `struct g2d_surface_state` read by `repaint_region`. -/
structure SurfaceState where
  solid_clear : Bool
  clcolor : Int
  attached : Bool
  surface_left : Int
  surface_top : Int
  surface_right : Int
  surface_bottom : Int
  surface_width : Int
  surface_height : Int
  buffer_type : WestonBufferType
  buffer_format : Nat

/-- The output fields read by `repaint_region`: the output's global
x-origin, its transform ordinal, and the bound destination surface's
dimensions. -/
structure OutputParams where
  x : Int
  transform : Nat
  dst_width : Int
  dst_height : Int

/-- A command issued to the g2d hardware service. -/
inductive DrawCall where
  | setClipping (left top right bottom : Int)
  | clearSolid (rect : G2dRect) (color : Int)
  | blit (src dst : G2dRect)
deriving DecidableEq, Repr

/-- `wl_fixed_from_double`: 24.8 fixed point.  The C implementation
rounds to nearest (ties to even); ties-to-even versus ties-up is
immaterial for every input considered here and nearest rounding is used. -/
def wl_fixed_from_double (d : ℚ) : Int := round (d * 256)

/-- `wl_fixed_to_int`: C integer division by 256 (truncation toward 0). -/
def wl_fixed_to_int (f : Int) : Int := Int.tdiv f 256

/-- `g2d_int_from_double` (lines 698-701). -/
def g2d_int_from_double (d : ℚ) : Int :=
  wl_fixed_to_int (wl_fixed_from_double d)

/-- The min/max bounding box of the clipped polygon's vertices, rounded
through `g2d_int_from_double` (lines 807-820).  Only evaluated on
polygons with at least 3 vertices. -/
def clipRectOfEdges (e : List (ℚ × ℚ)) : G2dRect :=
  match e with
  | [] => ⟨0, 0, 0, 0⟩
  | p :: ps =>
    let min_x := ps.foldl (fun a q => min a q.1) p.1
    let max_x := ps.foldl (fun a q => max a q.1) p.1
    let min_y := ps.foldl (fun a q => min a q.2) p.2
    let max_y := ps.foldl (fun a q => max a q.2) p.2
    ⟨g2d_int_from_double min_x, g2d_int_from_double min_y,
     g2d_int_from_double max_x, g2d_int_from_double max_y⟩

/-- The scissor rectangle for one damage-rect × surface-rect pair:
vertex bounding box, multi-display x-offset, then output-transform
correction (lines 807-830). -/
def pairClipRect (out : OutputParams) (e : List (ℚ × ℚ)) : G2dRect :=
  let c := clipRectOfEdges e
  let c := if out.x > 0 then
      { c with left := c.left - out.x, right := c.right - out.x }
    else c
  calculate_rect_with_transform out.dst_width out.dst_height out.transform c

/-- The inner loop of `repaint_region` over the surface-region
rectangles for one damage rectangle (lines 797-847).  Returns the draw
calls issued and whether the degenerate-scissor `return` was taken
(which aborts the whole `repaint_region`, not just this pair). -/
def repaintInner (gs : SurfaceState) (out : OutputParams)
    (edges : PixBox → PixBox → List (ℚ × ℚ))
    (srcRect dstrect : G2dRect) (rect : PixBox) :
    List PixBox → List DrawCall × Bool
  | [] => ([], false)
  | surf_rect :: rest =>
    let e := edges rect surf_rect
    if e.length < 3 then
      repaintInner gs out edges srcRect dstrect rect rest
    else
      let clipRect := pairClipRect out e
      if clipRect.left ≥ clipRect.right ∨ clipRect.top ≥ clipRect.bottom then
        ([], true)
      else
        let call :=
          if gs.solid_clear ∧ gs.buffer_type = WestonBufferType.solid ∧
             gs.buffer_format ≠ DRM_FORMAT_ARGB8888 then
            DrawCall.clearSolid clipRect gs.clcolor
          else
            DrawCall.blit srcRect dstrect
        let r := repaintInner gs out edges srcRect dstrect rect rest
        (DrawCall.setClipping clipRect.left clipRect.top clipRect.right
           clipRect.bottom :: call :: r.1, r.2)

/-- The outer loop of `repaint_region` over the damage rectangles
(lines 792-848): stops altogether when the inner loop took the
degenerate-scissor `return`. -/
def repaintOuter (gs : SurfaceState) (out : OutputParams)
    (edges : PixBox → PixBox → List (ℚ × ℚ))
    (srcRect dstrect : G2dRect) (surf_region : List PixBox) :
    List PixBox → List DrawCall
  | [] => []
  | rect :: rest =>
    let r := repaintInner gs out edges srcRect dstrect rect surf_region
    if r.2 then r.1
    else r.1 ++ repaintOuter gs out edges srcRect dstrect surf_region rest

/-- `repaint_region` (lines 703-849): early policy/precondition returns,
source-rectangle selection, destination-rectangle setup (multi-display
offset, output-transform correction, rotation resolution,
clip-and-scale), then the draw loops.  `region` and `surf_region` are
the rectangle lists of the pixman regions passed in. -/
def repaint_region (ev : ViewState) (gs : SurfaceState) (out : OutputParams)
    (region surf_region : List PixBox)
    (edges : PixBox → PixBox → List (ℚ × ℚ)) : List DrawCall :=
  if ev.alpha < 1 then []
  else if ¬gs.solid_clear ∧ (gs.surface_width ≤ 0 ∨ gs.surface_height ≤ 0) then []
  else if ¬gs.attached ∨ ev.bounding_rects.length ≤ 0 then []
  else
    match ev.bounding_rects with
    | [] => []
    | bb0 :: _ =>
      let swh := convert_size_by_view_transform ev.src_width_raw
        ev.src_height_raw ev.view_transform
      let src_width := swh.1
      let src_height := swh.2
      let srcRect : G2dRect :=
        if src_width ≠ -1 ∧ src_width > 0 ∧ ev.src_x ≥ 0 ∧ ev.src_y ≥ 0 ∧
           ev.src_x < gs.surface_width ∧ ev.src_y < gs.surface_height then
          ⟨ev.src_x * ev.scale, ev.src_y * ev.scale,
           min gs.surface_width ((ev.src_x + src_width) * ev.scale),
           min gs.surface_height ((ev.src_y + src_height) * ev.scale)⟩
        else
          ⟨gs.surface_left, gs.surface_top, gs.surface_right, gs.surface_bottom⟩
      let dstrect0 : G2dRect := ⟨bb0.x1, bb0.y1, bb0.x2, bb0.y2⟩
      let dstrect1 :=
        if out.x > 0 then
          { dstrect0 with left := dstrect0.left - out.x,
                          right := dstrect0.right - out.x }
        else dstrect0
      let dstrect2 := calculate_rect_with_transform out.dst_width
        out.dst_height out.transform dstrect1
      let rot := convert_transform_to_rot ev.view_transform out.transform
      let sd := g2d_clip_rects rot srcRect dstrect2 out.dst_width out.dst_height
      repaintOuter gs out edges sd.1 sd.2 surf_region region

/-! ### ensure_surface_buffer_is_ready and draw_view
(g2d-renderer.c lines 881-922, 1039-1109) -/

/-- g2d capabilities toggled by `draw_view`. -/
inductive Capability where
  | blend
  | globalAlpha
deriving DecidableEq, Repr

/-- An observable action of `draw_view`: surface-descriptor refresh,
acquire-fence wait (with its timeout argument), capability toggles, and
draw calls issued through `repaint_region`. -/
inductive RenderEvent where
  | refreshDescriptor
  | fenceWait (timeout : Int)
  | enable (c : Capability)
  | disable (c : Capability)
  | draw (c : DrawCall)
deriving DecidableEq, Repr

/-- External buffer/fence facts consulted by
`ensure_surface_buffer_is_ready`: whether a buffer is attached, whether
it is a renderer-opaque (EGL) buffer with a live resource, the imported
buffer's dimensions (checked by `get_g2dSurface`), the acquire fence fd,
and oracle results of the two `sync_wait` calls. -/
structure BufferReadyState where
  has_buffer : Bool
  is_renderer_opaque : Bool
  has_resource : Bool
  viv_width : Int
  viv_height : Int
  acquire_fence_fd : Int
  first_wait_ok : Bool
  first_wait_etime : Bool
  second_wait_ret : Int

/-- The acquire-fence wait of `ensure_surface_buffer_is_ready`
(lines 908-921): bounded 2000 ms wait, escalating to an unbounded wait
on `ETIME`. -/
def waitAcquireFence (b : BufferReadyState) (acc : List RenderEvent) :
    Int × List RenderEvent :=
  if b.acquire_fence_fd < 0 then (0, acc)
  else if b.first_wait_ok then (0, acc ++ [.fenceWait 2000])
  else if b.first_wait_etime then
    (b.second_wait_ret, acc ++ [.fenceWait 2000, .fenceWait (-1)])
  else (-1, acc ++ [.fenceWait 2000])

/-- `ensure_surface_buffer_is_ready` (lines 881-922): returns the status
and the readiness work performed (descriptor refresh, fence waits). -/
def ensure_surface_buffer_is_ready (b : BufferReadyState) :
    Int × List RenderEvent :=
  if ¬b.has_buffer then (0, [])
  else if b.is_renderer_opaque then
    if ¬b.has_resource then (0, [])
    else if b.viv_width ≤ 0 ∨ b.viv_height ≤ 0 then (-22, [.refreshDescriptor])
    else waitAcquireFence b [.refreshDescriptor]
  else waitAcquireFence b []

/-- `pixman_region32_init_rect(0, 0, w, h)` as a pixel set. -/
def rectRegion (width height : Int) : Region :=
  Finset.Ico 0 width ×ˢ Finset.Ico 0 height

/-- Everything `draw_view` reads: the view's global bounding box, clip
region, geometry scissor, the surface's dimensions and opaque region,
the buffer-readiness facts, and the inputs forwarded to
`repaint_region`.  `decomp` models `pixman_region32_rectangles`,
producing the rectangle list of a region. -/
structure DrawViewInput where
  boundingbox : Region
  clip : Region
  surface_width : Int
  surface_height : Int
  scissor_enabled : Bool
  scissor : Region
  opaqueRegion : Region
  buf : BufferReadyState
  ev : ViewState
  gs : SurfaceState
  out : OutputParams
  edges : PixBox → PixBox → List (ℚ × ℚ)
  decomp : Region → List PixBox

/-- `draw_view` (lines 1039-1109): computes
`repaint = (boundingbox ∩ damage) − clip`; when empty, returns without
any buffer-readiness work or draw; otherwise ensures the buffer is
ready, splits the surface into opaque and blended parts and repaints
each with the blend/global-alpha capabilities set per the view's alpha. -/
def draw_view (i : DrawViewInput) (damage : Region) : List RenderEvent :=
  let repaint := (i.boundingbox ∩ damage) \ i.clip
  if repaint = ∅ then []
  else
    let r := ensure_surface_buffer_is_ready i.buf
    if r.1 < 0 then r.2
    else
      let surface_blend0 := rectRegion i.surface_width i.surface_height
      let surface_blend1 :=
        if i.scissor_enabled then surface_blend0 ∩ i.scissor else surface_blend0
      let surface_blend := surface_blend1 \ i.opaqueRegion
      let surface_opaque :=
        if i.scissor_enabled then i.opaqueRegion ∩ i.scissor else i.opaqueRegion
      let opaquePart :=
        if surface_opaque ≠ ∅ then
          (if i.ev.alpha < 1 then
            [RenderEvent.enable .blend, RenderEvent.enable .globalAlpha]
          else []) ++
          (repaint_region i.ev i.gs i.out (i.decomp repaint)
            (i.decomp surface_opaque) i.edges).map RenderEvent.draw ++
          [RenderEvent.disable .globalAlpha, RenderEvent.disable .blend]
        else []
      let blendPart :=
        if surface_blend ≠ ∅ then
          [RenderEvent.enable .blend] ++
          (if i.ev.alpha < 1 then [RenderEvent.enable .globalAlpha] else []) ++
          (repaint_region i.ev i.gs i.out (i.decomp repaint)
            (i.decomp surface_blend) i.edges).map RenderEvent.draw ++
          [RenderEvent.disable .globalAlpha, RenderEvent.disable .blend]
        else []
      r.2 ++ opaquePart ++ blendPart

/-! ### g2d_renderer_read_pixels (g2d-renderer.c lines 656-696) -/

/-- An observable action of the readback path.  `allocBuf` is recorded
when `g2d_alloc` returns a buffer (not on allocation failure). -/
inductive ReadPixelsEvent where
  | allocBuf (size : Int)
  | freeBuf
  | blitVFlip (src dst : G2dRect)
  | finish
  | memcpyOut (bytes : Int)
deriving DecidableEq, Repr

/-- Inputs and external-call outcomes of `g2d_renderer_read_pixels`:
whether the pixman format maps to a g2d format, whether `g2d_alloc`
succeeds, whether `g2d_blit_surface` succeeds, the requested rectangle,
and the format's bits per pixel (`PIXMAN_FORMAT_BPP`). -/
structure ReadPixelsInput where
  format_ok : Bool
  alloc_ok : Bool
  blit_ok : Bool
  x : Int
  y : Int
  width : Int
  height : Int
  bpp_bits : Int

/-- `g2d_renderer_read_pixels` (lines 656-696): allocate a temporary
buffer, blit with `G2D_FLIP_V`, wait for completion (`g2d_finish`), copy
`width * height * BPP/8` bytes out, free the buffer; on blit failure the
buffer is freed and `-1` returned without copying. -/
def g2d_renderer_read_pixels (i : ReadPixelsInput) :
    Int × List ReadPixelsEvent :=
  if ¬i.format_ok then (-1, [])
  else if ¬i.alloc_ok then (-1, [])
  else
    let srcR : G2dRect := ⟨i.x, i.y, i.x + i.width, i.y + i.height⟩
    let dstR : G2dRect := ⟨0, 0, i.width, i.height⟩
    if ¬i.blit_ok then
      (-1, [.allocBuf (i.width * i.height * 4), .blitVFlip srcR dstR, .freeBuf])
    else
      (0, [.allocBuf (i.width * i.height * 4), .blitVFlip srcR dstR, .finish,
           .memcpyOut (Int.tdiv (i.width * i.height * i.bpp_bits) 8), .freeBuf])

/-! ### Auxiliary predicates and concrete fixtures -/

/-- A destination rectangle acceptable after clamping: either it covers
no pixel, or it lies inside `[0,W) × [0,H)`. -/
def dstClamped (d : G2dRect) (W H : Int) : Prop :=
  d.right ≤ d.left ∨ d.bottom ≤ d.top ∨
    (0 ≤ d.left ∧ d.right ≤ W ∧ 0 ≤ d.top ∧ d.bottom ≤ H)

/-- Every edge of `s` lies on or inside the corresponding edge of `s0`. -/
def srcWithin (s0 s : G2dRect) : Prop :=
  s0.left ≤ s.left ∧ s.right ≤ s0.right ∧ s0.top ≤ s.top ∧ s.bottom ≤ s0.bottom

/-- Per-frame output damage of the three-frame scenario: `D1`, `D2`,
`D3` on frames 1-3 and nothing afterwards. -/
def scenarioDamage (D1 D2 D3 : Region) : Nat → Region :=
  fun n => if n = 1 then D1 else if n = 2 then D2 else if n = 3 then D3 else ∅

/-- A view whose alpha is 1/2 and whose transform handling is disabled;
the viewport source box is unset (all `-1`), so `repaint_region` would
take the surface-sized source rectangle. -/
def cexView : ViewState :=
  { alpha := 1/2, transform_enabled := false, bounding_rects := [⟨0, 0, 8, 8⟩],
    view_transform := 0, src_x := -1, src_y := -1, src_width_raw := -1,
    src_height_raw := -1, scale := 1 }

/-- An attached 8×8 shm surface that is not a solid-clear surface. -/
def cexSurface : SurfaceState :=
  { solid_clear := false, clcolor := 0, attached := true, surface_left := 0,
    surface_top := 0, surface_right := 8, surface_bottom := 8,
    surface_width := 8, surface_height := 8, buffer_type := .shm,
    buffer_format := 0 }

/-- An untransformed output at the global origin with an 8×8 framebuffer. -/
def cexOutput : OutputParams := { x := 0, transform := 0, dst_width := 8, dst_height := 8 }

/-- Clipper oracle returning a full 8×8 quadrilateral for every pair. -/
def cexEdges : PixBox → PixBox → List (ℚ × ℚ) :=
  fun _ _ => [(0, 0), (8, 0), (8, 8), (0, 8)]

/-- Clipper oracle for the degenerate-scissor scenario: for the damage
rectangle starting at x1 = 0 it returns a 3-vertex polygon whose
vertices share one x coordinate (so the scissor rectangle is empty);
for any other damage rectangle it returns a full quadrilateral. -/
def cexEdgesDegen : PixBox → PixBox → List (ℚ × ℚ) :=
  fun r _ =>
    if r.x1 = 0 then [(1, 0), (1, 8), (1, 4)]
    else [(0, 0), (8, 0), (8, 8), (0, 8)]

/-- First damage rectangle of the degenerate-scissor scenario. -/
def cexBox1 : PixBox := ⟨0, 0, 8, 8⟩

/-- Second damage rectangle of the degenerate-scissor scenario. -/
def cexBox2 : PixBox := ⟨1, 0, 8, 8⟩

end G2d

namespace G2d

/-! ## Helper lemmas -/

theorem floor_scale_nonneg (a b c : Int) (ha : 0 ≤ a) (hb : 0 ≤ b) (hc : 0 < c) :
    0 ≤ ⌊(a : ℚ) * ((b : ℚ) / (c : ℚ))⌋ := by
  apply Int.floor_nonneg.mpr
  have ha' : (0 : ℚ) ≤ (a : ℚ) := by exact_mod_cast ha
  have hb' : (0 : ℚ) ≤ (b : ℚ) := by exact_mod_cast hb
  have hc' : (0 : ℚ) ≤ (c : ℚ) := by exact_mod_cast hc.le
  exact mul_nonneg ha' (div_nonneg hb' hc')

theorem le_floor_scale (a b c : Int) (hb : 0 < b) (hc : 0 < c)
    (h : b ≤ ⌊(a : ℚ) * ((b : ℚ) / (c : ℚ))⌋) : c ≤ a := by
  have hb' : (0 : ℚ) < (b : ℚ) := by exact_mod_cast hb
  have hc' : (0 : ℚ) < (c : ℚ) := by exact_mod_cast hc
  have h1 : (b : ℚ) ≤ (a : ℚ) * ((b : ℚ) / (c : ℚ)) :=
    le_trans (by exact_mod_cast h) (Int.floor_le _)
  have h2 : (b : ℚ) * (c : ℚ) ≤ (a : ℚ) * (b : ℚ) := by
    rw [mul_div_assoc'] at h1
    calc (b : ℚ) * (c : ℚ) ≤ ((a : ℚ) * (b : ℚ) / (c : ℚ)) * (c : ℚ) :=
          mul_le_mul_of_nonneg_right h1 hc'.le
      _ = (a : ℚ) * (b : ℚ) := div_mul_cancel₀ _ hc'.ne'
  have h3 : (c : ℚ) ≤ (a : ℚ) := by
    have := mul_le_mul_of_nonneg_left h2 (inv_nonneg.mpr hb'.le)
    rwa [← mul_assoc, inv_mul_cancel₀ hb'.ne', one_mul, mul_comm (a : ℚ) (b : ℚ),
      ← mul_assoc, inv_mul_cancel₀ hb'.ne', one_mul] at this
  exact_mod_cast h3

theorem le_floor_scale_succ (a b c : Int) (hb : 0 < b) (hc : 0 < c)
    (h : b + 1 ≤ ⌊(a : ℚ) * ((b : ℚ) / (c : ℚ))⌋) : c < a := by
  rcases lt_or_le c a with h' | h'
  · exact h'
  · exfalso
    have h1 : ⌊(a : ℚ) * ((b : ℚ) / (c : ℚ))⌋ ≤ b := by
      have ha' : (a : ℚ) ≤ (c : ℚ) := by exact_mod_cast h'
      have hb' : (0 : ℚ) ≤ (b : ℚ) := by exact_mod_cast hb.le
      have hc' : (0 : ℚ) < (c : ℚ) := by exact_mod_cast hc
      have h2 : (a : ℚ) * ((b : ℚ) / (c : ℚ)) ≤ (b : ℚ) := by
        calc (a : ℚ) * ((b : ℚ) / (c : ℚ)) ≤ (c : ℚ) * ((b : ℚ) / (c : ℚ)) :=
              mul_le_mul_of_nonneg_right ha' (div_nonneg hb' hc'.le)
          _ = (b : ℚ) := mul_div_cancel₀ _ hc'.ne'
      calc ⌊(a : ℚ) * ((b : ℚ) / (c : ℚ))⌋ ≤ ⌊(b : ℚ)⌋ := Int.floor_le_floor h2
        _ = b := Int.floor_intCast b
    omega

theorem le_floor_scale_pair (a1 a2 b c : Int) (hb : 0 < b) (hc : 0 < c)
    (h : b ≤ ⌊(a1 : ℚ) * ((b : ℚ) / (c : ℚ))⌋ + ⌊(a2 : ℚ) * ((b : ℚ) / (c : ℚ))⌋) :
    c ≤ a1 + a2 := by
  have hb' : (0 : ℚ) < (b : ℚ) := by exact_mod_cast hb
  have hc' : (0 : ℚ) < (c : ℚ) := by exact_mod_cast hc
  have h1 : (b : ℚ) ≤ (a1 : ℚ) * ((b : ℚ) / (c : ℚ)) + (a2 : ℚ) * ((b : ℚ) / (c : ℚ)) := by
    have hf1 := Int.floor_le ((a1 : ℚ) * ((b : ℚ) / (c : ℚ)))
    have hf2 := Int.floor_le ((a2 : ℚ) * ((b : ℚ) / (c : ℚ)))
    have hcast : (b : ℚ) ≤
        ((⌊(a1 : ℚ) * ((b : ℚ) / (c : ℚ))⌋ + ⌊(a2 : ℚ) * ((b : ℚ) / (c : ℚ))⌋ : Int) : ℚ) := by
      exact_mod_cast h
    push_cast at hcast
    linarith
  have h2 : (b : ℚ) ≤ ((a1 : ℚ) + (a2 : ℚ)) * ((b : ℚ) / (c : ℚ)) := by
    rw [add_mul]; exact h1
  have h3 : (c : ℚ) ≤ (a1 : ℚ) + (a2 : ℚ) := by
    have h4 : (b : ℚ) * (c : ℚ) ≤ ((a1 : ℚ) + (a2 : ℚ)) * (b : ℚ) := by
      rw [mul_div_assoc'] at h2
      calc (b : ℚ) * (c : ℚ) ≤ (((a1 : ℚ) + (a2 : ℚ)) * (b : ℚ) / (c : ℚ)) * (c : ℚ) :=
            mul_le_mul_of_nonneg_right h2 hc'.le
        _ = ((a1 : ℚ) + (a2 : ℚ)) * (b : ℚ) := div_mul_cancel₀ _ hc'.ne'
    nlinarith
  exact_mod_cast h3

theorem le_floor_scale_pair_succ (a1 a2 b c : Int) (hb : 0 < b) (hc : 0 < c)
    (h : b + 1 ≤ ⌊(a1 : ℚ) * ((b : ℚ) / (c : ℚ))⌋ + ⌊(a2 : ℚ) * ((b : ℚ) / (c : ℚ))⌋) :
    c < a1 + a2 := by
  rcases lt_or_le c (a1 + a2) with h' | h'
  · exact h'
  · exfalso
    have hb' : (0 : ℚ) < (b : ℚ) := by exact_mod_cast hb
    have hc' : (0 : ℚ) < (c : ℚ) := by exact_mod_cast hc
    have ha' : ((a1 : ℚ) + (a2 : ℚ)) ≤ (c : ℚ) := by exact_mod_cast h'
    have h1 : (b : ℚ) + 1 ≤ (a1 : ℚ) * ((b : ℚ) / (c : ℚ)) + (a2 : ℚ) * ((b : ℚ) / (c : ℚ)) := by
      have hf1 := Int.floor_le ((a1 : ℚ) * ((b : ℚ) / (c : ℚ)))
      have hf2 := Int.floor_le ((a2 : ℚ) * ((b : ℚ) / (c : ℚ)))
      have hcast : ((b : ℚ) + 1) ≤
          ((⌊(a1 : ℚ) * ((b : ℚ) / (c : ℚ))⌋ + ⌊(a2 : ℚ) * ((b : ℚ) / (c : ℚ))⌋ : Int) : ℚ) := by
        exact_mod_cast h
      push_cast at hcast
      linarith
    have h2 : (b : ℚ) + 1 ≤ ((a1 : ℚ) + (a2 : ℚ)) * ((b : ℚ) / (c : ℚ)) := by
      rw [add_mul]; exact h1
    have h3 : ((a1 : ℚ) + (a2 : ℚ)) * ((b : ℚ) / (c : ℚ)) ≤ (b : ℚ) := by
      calc ((a1 : ℚ) + (a2 : ℚ)) * ((b : ℚ) / (c : ℚ)) ≤ (c : ℚ) * ((b : ℚ) / (c : ℚ)) :=
            mul_le_mul_of_nonneg_right ha' (div_nonneg hb'.le hc'.le)
        _ = (b : ℚ) := mul_div_cancel₀ _ hc'.ne'
    linarith

theorem dstClamped_subset (d : G2dRect) (W H : Int) (h : dstClamped d W H) :
    rectPixelSet d ⊆ Set.Ico 0 W ×ˢ Set.Ico 0 H := by
  intro p hp
  obtain ⟨h1, h2, h3, h4⟩ := hp
  rcases h with h | h | ⟨g1, g2, g3, g4⟩
  · omega
  · omega
  · exact ⟨⟨by omega, by omega⟩, ⟨by omega, by omega⟩⟩

theorem srcWithin_area (s0 s : G2dRect) (h : srcWithin s0 s) :
    rectArea s ≤ rectArea s0 := by
  obtain ⟨h1, h2, h3, h4⟩ := h
  unfold rectArea
  apply mul_le_mul (by omega) (by omega) (le_max_left 0 _) (le_max_left 0 _)

theorem ringSlot_congr (go : G2dOutputState) (a b : Nat) (h : a % 3 = b % 3) :
    ringSlot go a = ringSlot go b := by
  unfold ringSlot
  congr 1
  exact Fin.ext (by simpa [slotOf] using h)

theorem ringSlot_rotate_hit (go : G2dOutputState) (dmg : Region) (i : Nat)
    (h : i % 3 = (go.current_buffer + 1) % 3) :
    ringSlot (output_rotate_damage go dmg) i = dmg := by
  unfold ringSlot output_rotate_damage
  dsimp only
  rw [Function.update_apply, if_pos]
  exact Fin.ext (by simp [slotOf]; omega)

theorem ringSlot_rotate_miss (go : G2dOutputState) (dmg : Region) (i : Nat)
    (h : ¬ i % 3 = (go.current_buffer + 1) % 3) :
    ringSlot (output_rotate_damage go dmg) i = ringSlot go i := by
  unfold ringSlot output_rotate_damage
  dsimp only
  rw [Function.update_apply, if_neg]
  intro he
  have hv : i % 3 = ((go.current_buffer + 1) % 3) % 3 := by
    simpa [slotOf, Fin.ext_iff] using he
  exact h (by omega)

theorem stateAfterFrames_spec (d : Nat → Region) (n : Nat) :
    (stateAfterFrames d n).current_buffer = n % 3 ∧
    ringSlot (stateAfterFrames d n) n = dTrunc d n ∧
    ringSlot (stateAfterFrames d n) (n + 2) = dTrunc d (n - 1) ∧
    ringSlot (stateAfterFrames d n) (n + 1) = dTrunc d (n - 2) := by
  induction n with
  | zero =>
    refine ⟨rfl, ?_, ?_, ?_⟩ <;>
      simp [stateAfterFrames, initOutputState, ringSlot, dTrunc]
  | succ n ih =>
    obtain ⟨hc, h0, h1, h2⟩ := ih
    have hstep : stateAfterFrames d (n + 1) =
        output_rotate_damage (stateAfterFrames d n) (d (n + 1)) := rfl
    refine ⟨?_, ?_, ?_, ?_⟩
    · show ((stateAfterFrames d n).current_buffer + 1) % 3 = (n + 1) % 3
      rw [hc]; omega
    · rw [hstep, ringSlot_rotate_hit _ _ _ (by rw [hc]; omega)]
      simp [dTrunc]
    · rw [hstep, ringSlot_rotate_miss _ _ _ (by rw [hc]; omega),
        ringSlot_congr _ (n + 1 + 2) n (by omega), h0]
      simp
    · rw [hstep, ringSlot_rotate_miss _ _ _ (by rw [hc]; omega),
        ringSlot_congr _ (n + 1 + 1) (n + 2) (by omega), h1]
      congr 1

theorem totalDamageAt_closed (d : Nat → Region) (n : Nat) :
    totalDamageAt d (n + 1) =
      d (n + 1) ∪ (dTrunc d n ∪ (dTrunc d (n - 1) ∪ dTrunc d (n - 2))) := by
  obtain ⟨hc, h0, h1, h2⟩ := stateAfterFrames_spec d n
  show repaint_total_damage (stateAfterFrames d (n + 1 - 1)) (d (n + 1)) = _
  simp only [Nat.add_sub_cancel]
  unfold repaint_total_damage output_get_damage
  have h3 : n % 3 = 0 ∨ n % 3 = 1 ∨ n % 3 = 2 := by omega
  rcases h3 with h3 | h3 | h3
  · rw [ringSlot_congr _ 0 n (by omega), ringSlot_congr _ 1 (n + 1) (by omega),
      ringSlot_congr _ 2 (n + 2) (by omega), h0, h1, h2]
    ext q; simp [Finset.mem_union]; tauto
  · rw [ringSlot_congr _ 0 (n + 2) (by omega), ringSlot_congr _ 1 n (by omega),
      ringSlot_congr _ 2 (n + 1) (by omega), h0, h1, h2]
    ext q; simp [Finset.mem_union]; tauto
  · rw [ringSlot_congr _ 0 (n + 1) (by omega), ringSlot_congr _ 1 (n + 2) (by omega),
      ringSlot_congr _ 2 n (by omega), h0, h1, h2]
    ext q; simp [Finset.mem_union]; tauto

set_option maxHeartbeats 2000000 in
/-- Clamp soundness of the rotation-0 chain: under well-formed inputs the
final destination rectangle is empty or inside bounds and the source
rectangle only shrinks. -/
theorem clipRot0_spec (s0 d0 : G2dRect) (W H : Int)
    (hsl : 0 ≤ s0.left) (hsr : s0.left < s0.right)
    (hst : 0 ≤ s0.top) (hsb : s0.top < s0.bottom)
    (hdw : d0.left < d0.right) (hdh : d0.top < d0.bottom)
    (scale_h scale_v : ℚ)
    (hsh : scale_h = ((s0.right - s0.left : Int) : ℚ) / ((d0.right - d0.left : Int) : ℚ))
    (hsv : scale_v = ((s0.bottom - s0.top : Int) : ℚ) / ((d0.bottom - d0.top : Int) : ℚ)) :
    dstClamped (clipRot0 s0 d0 W H scale_h scale_v).2 W H ∧
    srcWithin s0 (clipRot0 s0 d0 W H scale_h scale_v).1 := by
  have F1 : 0 ≤ d0.left ∨ 0 ≤ ⌊((-d0.left : Int) : ℚ) * scale_h⌋ := by
    rcases le_or_lt 0 d0.left with h | h
    · exact Or.inl h
    · exact Or.inr (by rw [hsh]; exact floor_scale_nonneg _ _ _ (by omega) (by omega) (by omega))
  have F2 : d0.right ≤ W ∨ 0 ≤ ⌊((d0.right - W : Int) : ℚ) * scale_h⌋ := by
    rcases le_or_lt d0.right W with h | h
    · exact Or.inl h
    · exact Or.inr (by rw [hsh]; exact floor_scale_nonneg _ _ _ (by omega) (by omega) (by omega))
  have F3 : 0 ≤ d0.top ∨ 0 ≤ ⌊((-d0.top : Int) : ℚ) * scale_v⌋ := by
    rcases le_or_lt 0 d0.top with h | h
    · exact Or.inl h
    · exact Or.inr (by rw [hsv]; exact floor_scale_nonneg _ _ _ (by omega) (by omega) (by omega))
  have F4 : d0.bottom ≤ H ∨ 0 ≤ ⌊((d0.bottom - H : Int) : ℚ) * scale_v⌋ := by
    rcases le_or_lt d0.bottom H with h | h
    · exact Or.inl h
    · exact Or.inr (by rw [hsv]; exact floor_scale_nonneg _ _ _ (by omega) (by omega) (by omega))
  have G1 : ⌊((-d0.left : Int) : ℚ) * scale_h⌋ < s0.right - s0.left ∨
      d0.right - d0.left ≤ -d0.left := by
    rcases lt_or_le (⌊((-d0.left : Int) : ℚ) * scale_h⌋) (s0.right - s0.left) with h | h
    · exact Or.inl h
    · exact Or.inr (le_floor_scale (-d0.left) (s0.right - s0.left)
        (d0.right - d0.left) (by omega) (by omega) (by rw [hsh] at h; exact h))
  have G2 : ⌊((d0.right - W : Int) : ℚ) * scale_h⌋ < s0.right - s0.left ∨
      d0.right - d0.left ≤ d0.right - W := by
    rcases lt_or_le (⌊((d0.right - W : Int) : ℚ) * scale_h⌋) (s0.right - s0.left) with h | h
    · exact Or.inl h
    · exact Or.inr (le_floor_scale (d0.right - W) (s0.right - s0.left)
        (d0.right - d0.left) (by omega) (by omega) (by rw [hsh] at h; exact h))
  have G12 : ⌊((-d0.left : Int) : ℚ) * scale_h⌋ + ⌊((d0.right - W : Int) : ℚ) * scale_h⌋ <
        s0.right - s0.left ∨
      d0.right - d0.left ≤ -d0.left + (d0.right - W) := by
    rcases lt_or_le (⌊((-d0.left : Int) : ℚ) * scale_h⌋ +
        ⌊((d0.right - W : Int) : ℚ) * scale_h⌋) (s0.right - s0.left) with h | h
    · exact Or.inl h
    · exact Or.inr (le_floor_scale_pair (-d0.left) (d0.right - W)
        (s0.right - s0.left) (d0.right - d0.left) (by omega) (by omega)
        (by rw [hsh] at h; exact h))
  have G3 : ⌊((-d0.top : Int) : ℚ) * scale_v⌋ < s0.bottom - s0.top ∨
      d0.bottom - d0.top ≤ -d0.top := by
    rcases lt_or_le (⌊((-d0.top : Int) : ℚ) * scale_v⌋) (s0.bottom - s0.top) with h | h
    · exact Or.inl h
    · exact Or.inr (le_floor_scale (-d0.top) (s0.bottom - s0.top)
        (d0.bottom - d0.top) (by omega) (by omega) (by rw [hsv] at h; exact h))
  unfold clipRot0 clipRot0Right clipRot0Top clipRot0Bottom
  dsimp only
  set D1 := ⌊((-d0.left : Int) : ℚ) * scale_h⌋ with hD1
  set D2 := ⌊((d0.right - W : Int) : ℚ) * scale_h⌋ with hD2
  set D3 := ⌊((-d0.top : Int) : ℚ) * scale_v⌋ with hD3
  set D4 := ⌊((d0.bottom - H : Int) : ℚ) * scale_v⌋ with hD4
  clear_value D1 D2 D3 D4
  clear hD1 hD2 hD3 hD4 hsh hsv
  split_ifs <;> (simp only [dstClamped, srcWithin]; omega)

set_option maxHeartbeats 2000000 in
/-- Clamp soundness of the rotation-270 chain. -/
theorem clipRot270_spec (s0 d0 : G2dRect) (W H : Int)
    (hsl : 0 ≤ s0.left) (hsr : s0.left < s0.right)
    (hst : 0 ≤ s0.top) (hsb : s0.top < s0.bottom)
    (hdw : d0.left < d0.right) (hdh : d0.top < d0.bottom)
    (scale_h scale_v : ℚ)
    (hsh : scale_h = ((s0.bottom - s0.top : Int) : ℚ) / ((d0.right - d0.left : Int) : ℚ))
    (hsv : scale_v = ((s0.right - s0.left : Int) : ℚ) / ((d0.bottom - d0.top : Int) : ℚ)) :
    dstClamped (clipRot270 s0 d0 W H scale_h scale_v).2 W H ∧
    srcWithin s0 (clipRot270 s0 d0 W H scale_h scale_v).1 := by
  have F1 : 0 ≤ d0.left ∨ 0 ≤ ⌊((-d0.left : Int) : ℚ) * scale_h⌋ := by
    rcases le_or_lt 0 d0.left with h | h
    · exact Or.inl h
    · exact Or.inr (by rw [hsh]; exact floor_scale_nonneg _ _ _ (by omega) (by omega) (by omega))
  have F2 : d0.bottom ≤ H ∨ 0 ≤ ⌊((d0.bottom - H : Int) : ℚ) * scale_v⌋ := by
    rcases le_or_lt d0.bottom H with h | h
    · exact Or.inl h
    · exact Or.inr (by rw [hsv]; exact floor_scale_nonneg _ _ _ (by omega) (by omega) (by omega))
  have F3 : 0 ≤ d0.top ∨ 0 ≤ ⌊((-d0.top : Int) : ℚ) * scale_v⌋ := by
    rcases le_or_lt 0 d0.top with h | h
    · exact Or.inl h
    · exact Or.inr (by rw [hsv]; exact floor_scale_nonneg _ _ _ (by omega) (by omega) (by omega))
  have F4 : d0.right ≤ W ∨ 0 ≤ ⌊((d0.right - W : Int) : ℚ) * scale_h⌋ := by
    rcases le_or_lt d0.right W with h | h
    · exact Or.inl h
    · exact Or.inr (by rw [hsh]; exact floor_scale_nonneg _ _ _ (by omega) (by omega) (by omega))
  have G1 : ⌊((-d0.left : Int) : ℚ) * scale_h⌋ < s0.bottom - s0.top ∨
      d0.right - d0.left ≤ -d0.left := by
    rcases lt_or_le (⌊((-d0.left : Int) : ℚ) * scale_h⌋) (s0.bottom - s0.top) with h | h
    · exact Or.inl h
    · exact Or.inr (le_floor_scale (-d0.left) (s0.bottom - s0.top)
        (d0.right - d0.left) (by omega) (by omega) (by rw [hsh] at h; exact h))
  have G2 : ⌊((d0.bottom - H : Int) : ℚ) * scale_v⌋ ≤ s0.right - s0.left ∨
      d0.bottom - d0.top < d0.bottom - H := by
    rcases le_or_lt (⌊((d0.bottom - H : Int) : ℚ) * scale_v⌋) (s0.right - s0.left) with h | h
    · exact Or.inl h
    · exact Or.inr (le_floor_scale_succ (d0.bottom - H) (s0.right - s0.left)
        (d0.bottom - d0.top) (by omega) (by omega) (by rw [hsv] at h; omega))
  have G23 : ⌊((d0.bottom - H : Int) : ℚ) * scale_v⌋ +
        ⌊((-d0.top : Int) : ℚ) * scale_v⌋ ≤ s0.right - s0.left ∨
      d0.bottom - d0.top < (d0.bottom - H) + -d0.top := by
    rcases le_or_lt (⌊((d0.bottom - H : Int) : ℚ) * scale_v⌋ +
        ⌊((-d0.top : Int) : ℚ) * scale_v⌋) (s0.right - s0.left) with h | h
    · exact Or.inl h
    · exact Or.inr (le_floor_scale_pair_succ (d0.bottom - H) (-d0.top)
        (s0.right - s0.left) (d0.bottom - d0.top) (by omega) (by omega)
        (by rw [hsv] at h; omega))
  have G3 : ⌊((-d0.top : Int) : ℚ) * scale_v⌋ ≤ s0.right - s0.left ∨
      d0.bottom - d0.top < -d0.top := by
    rcases le_or_lt (⌊((-d0.top : Int) : ℚ) * scale_v⌋) (s0.right - s0.left) with h | h
    · exact Or.inl h
    · exact Or.inr (le_floor_scale_succ (-d0.top) (s0.right - s0.left)
        (d0.bottom - d0.top) (by omega) (by omega) (by rw [hsv] at h; omega))
  have G14 : ⌊((-d0.left : Int) : ℚ) * scale_h⌋ +
        ⌊((d0.right - W : Int) : ℚ) * scale_h⌋ < s0.bottom - s0.top ∨
      d0.right - d0.left ≤ -d0.left + (d0.right - W) := by
    rcases lt_or_le (⌊((-d0.left : Int) : ℚ) * scale_h⌋ +
        ⌊((d0.right - W : Int) : ℚ) * scale_h⌋) (s0.bottom - s0.top) with h | h
    · exact Or.inl h
    · exact Or.inr (le_floor_scale_pair (-d0.left) (d0.right - W)
        (s0.bottom - s0.top) (d0.right - d0.left) (by omega) (by omega)
        (by rw [hsh] at h; exact h))
  have G4 : ⌊((d0.right - W : Int) : ℚ) * scale_h⌋ < s0.bottom - s0.top ∨
      d0.right - d0.left ≤ d0.right - W := by
    rcases lt_or_le (⌊((d0.right - W : Int) : ℚ) * scale_h⌋) (s0.bottom - s0.top) with h | h
    · exact Or.inl h
    · exact Or.inr (le_floor_scale (d0.right - W) (s0.bottom - s0.top)
        (d0.right - d0.left) (by omega) (by omega) (by rw [hsh] at h; exact h))
  unfold clipRot270 clipRot270Bottom clipRot270Top clipRot270Right
  dsimp only
  set D1 := ⌊((-d0.left : Int) : ℚ) * scale_h⌋ with hD1
  set D2 := ⌊((d0.bottom - H : Int) : ℚ) * scale_v⌋ with hD2
  set D3 := ⌊((-d0.top : Int) : ℚ) * scale_v⌋ with hD3
  set D4 := ⌊((d0.right - W : Int) : ℚ) * scale_h⌋ with hD4
  clear_value D1 D2 D3 D4
  clear hD1 hD2 hD3 hD4 hsh hsv
  split_ifs <;> (simp only [dstClamped, srcWithin]; omega)

set_option maxHeartbeats 2000000 in
/-- Clamp soundness of the rotation-90 chain. -/
theorem clipRot90_spec (s0 d0 : G2dRect) (W H : Int)
    (hsl : 0 ≤ s0.left) (hsr : s0.left < s0.right)
    (hst : 0 ≤ s0.top) (hsb : s0.top < s0.bottom)
    (hdw : d0.left < d0.right) (hdh : d0.top < d0.bottom)
    (scale_h scale_v : ℚ)
    (hsh : scale_h = ((s0.bottom - s0.top : Int) : ℚ) / ((d0.right - d0.left : Int) : ℚ))
    (hsv : scale_v = ((s0.right - s0.left : Int) : ℚ) / ((d0.bottom - d0.top : Int) : ℚ)) :
    dstClamped (clipRot90 s0 d0 W H scale_h scale_v).2 W H ∧
    srcWithin s0 (clipRot90 s0 d0 W H scale_h scale_v).1 := by
  have F1 : 0 ≤ d0.left ∨ 0 ≤ ⌊((-d0.left : Int) : ℚ) * scale_h⌋ := by
    rcases le_or_lt 0 d0.left with h | h
    · exact Or.inl h
    · exact Or.inr (by rw [hsh]; exact floor_scale_nonneg _ _ _ (by omega) (by omega) (by omega))
  have F2 : 0 ≤ d0.top ∨ 0 ≤ ⌊((-d0.top : Int) : ℚ) * scale_v⌋ := by
    rcases le_or_lt 0 d0.top with h | h
    · exact Or.inl h
    · exact Or.inr (by rw [hsv]; exact floor_scale_nonneg _ _ _ (by omega) (by omega) (by omega))
  have F3 : d0.bottom ≤ H ∨ 0 ≤ ⌊((d0.bottom - H : Int) : ℚ) * scale_v⌋ := by
    rcases le_or_lt d0.bottom H with h | h
    · exact Or.inl h
    · exact Or.inr (by rw [hsv]; exact floor_scale_nonneg _ _ _ (by omega) (by omega) (by omega))
  have F4 : d0.right ≤ W ∨ 0 ≤ ⌊((d0.right - W : Int) : ℚ) * scale_h⌋ := by
    rcases le_or_lt d0.right W with h | h
    · exact Or.inl h
    · exact Or.inr (by rw [hsh]; exact floor_scale_nonneg _ _ _ (by omega) (by omega) (by omega))
  have G1 : ⌊((-d0.left : Int) : ℚ) * scale_h⌋ < s0.bottom - s0.top ∨
      d0.right - d0.left ≤ -d0.left := by
    rcases lt_or_le (⌊((-d0.left : Int) : ℚ) * scale_h⌋) (s0.bottom - s0.top) with h | h
    · exact Or.inl h
    · exact Or.inr (le_floor_scale (-d0.left) (s0.bottom - s0.top)
        (d0.right - d0.left) (by omega) (by omega) (by rw [hsh] at h; exact h))
  have G2 : ⌊((-d0.top : Int) : ℚ) * scale_v⌋ < s0.right - s0.left ∨
      d0.bottom - d0.top ≤ -d0.top := by
    rcases lt_or_le (⌊((-d0.top : Int) : ℚ) * scale_v⌋) (s0.right - s0.left) with h | h
    · exact Or.inl h
    · exact Or.inr (le_floor_scale (-d0.top) (s0.right - s0.left)
        (d0.bottom - d0.top) (by omega) (by omega) (by rw [hsv] at h; exact h))
  have G23 : ⌊((-d0.top : Int) : ℚ) * scale_v⌋ +
        ⌊((d0.bottom - H : Int) : ℚ) * scale_v⌋ < s0.right - s0.left ∨
      d0.bottom - d0.top ≤ -d0.top + (d0.bottom - H) := by
    rcases lt_or_le (⌊((-d0.top : Int) : ℚ) * scale_v⌋ +
        ⌊((d0.bottom - H : Int) : ℚ) * scale_v⌋) (s0.right - s0.left) with h | h
    · exact Or.inl h
    · exact Or.inr (le_floor_scale_pair (-d0.top) (d0.bottom - H)
        (s0.right - s0.left) (d0.bottom - d0.top) (by omega) (by omega)
        (by rw [hsv] at h; exact h))
  have G3 : ⌊((d0.bottom - H : Int) : ℚ) * scale_v⌋ < s0.right - s0.left ∨
      d0.bottom - d0.top ≤ d0.bottom - H := by
    rcases lt_or_le (⌊((d0.bottom - H : Int) : ℚ) * scale_v⌋) (s0.right - s0.left) with h | h
    · exact Or.inl h
    · exact Or.inr (le_floor_scale (d0.bottom - H) (s0.right - s0.left)
        (d0.bottom - d0.top) (by omega) (by omega) (by rw [hsv] at h; exact h))
  have G14 : ⌊((-d0.left : Int) : ℚ) * scale_h⌋ +
        ⌊((d0.right - W : Int) : ℚ) * scale_h⌋ < s0.bottom - s0.top ∨
      d0.right - d0.left ≤ -d0.left + (d0.right - W) := by
    rcases lt_or_le (⌊((-d0.left : Int) : ℚ) * scale_h⌋ +
        ⌊((d0.right - W : Int) : ℚ) * scale_h⌋) (s0.bottom - s0.top) with h | h
    · exact Or.inl h
    · exact Or.inr (le_floor_scale_pair (-d0.left) (d0.right - W)
        (s0.bottom - s0.top) (d0.right - d0.left) (by omega) (by omega)
        (by rw [hsh] at h; exact h))
  have G4 : ⌊((d0.right - W : Int) : ℚ) * scale_h⌋ < s0.bottom - s0.top ∨
      d0.right - d0.left ≤ d0.right - W := by
    rcases lt_or_le (⌊((d0.right - W : Int) : ℚ) * scale_h⌋) (s0.bottom - s0.top) with h | h
    · exact Or.inl h
    · exact Or.inr (le_floor_scale (d0.right - W) (s0.bottom - s0.top)
        (d0.right - d0.left) (by omega) (by omega) (by rw [hsh] at h; exact h))
  unfold clipRot90 clipRot90Top clipRot90Bottom clipRot90Right
  dsimp only
  set D1 := ⌊((-d0.left : Int) : ℚ) * scale_h⌋ with hD1
  set D2 := ⌊((-d0.top : Int) : ℚ) * scale_v⌋ with hD2
  set D3 := ⌊((d0.bottom - H : Int) : ℚ) * scale_v⌋ with hD3
  set D4 := ⌊((d0.right - W : Int) : ℚ) * scale_h⌋ with hD4
  clear_value D1 D2 D3 D4
  clear hD1 hD2 hD3 hD4 hsh hsv
  split_ifs <;> (simp only [dstClamped, srcWithin]; omega)

set_option maxHeartbeats 2000000 in
/-- Clamp soundness of the rotation-180 chain. -/
theorem clipRot180_spec (s0 d0 : G2dRect) (W H : Int)
    (hsl : 0 ≤ s0.left) (hsr : s0.left < s0.right)
    (hst : 0 ≤ s0.top) (hsb : s0.top < s0.bottom)
    (hdw : d0.left < d0.right) (hdh : d0.top < d0.bottom)
    (scale_h scale_v : ℚ)
    (hsh : scale_h = ((s0.right - s0.left : Int) : ℚ) / ((d0.right - d0.left : Int) : ℚ))
    (hsv : scale_v = ((s0.bottom - s0.top : Int) : ℚ) / ((d0.bottom - d0.top : Int) : ℚ)) :
    dstClamped (clipRot180 s0 d0 W H scale_h scale_v).2 W H ∧
    srcWithin s0 (clipRot180 s0 d0 W H scale_h scale_v).1 := by
  have F1 : 0 ≤ d0.left ∨ 0 ≤ ⌊((-d0.left : Int) : ℚ) * scale_h⌋ := by
    rcases le_or_lt 0 d0.left with h | h
    · exact Or.inl h
    · exact Or.inr (by rw [hsh]; exact floor_scale_nonneg _ _ _ (by omega) (by omega) (by omega))
  have F2 : d0.right ≤ W ∨ 0 ≤ ⌊((d0.right - W : Int) : ℚ) * scale_h⌋ := by
    rcases le_or_lt d0.right W with h | h
    · exact Or.inl h
    · exact Or.inr (by rw [hsh]; exact floor_scale_nonneg _ _ _ (by omega) (by omega) (by omega))
  have F3 : 0 ≤ d0.top ∨ 0 ≤ ⌊((-d0.top : Int) : ℚ) * scale_v⌋ := by
    rcases le_or_lt 0 d0.top with h | h
    · exact Or.inl h
    · exact Or.inr (by rw [hsv]; exact floor_scale_nonneg _ _ _ (by omega) (by omega) (by omega))
  have F4 : d0.bottom ≤ H ∨ 0 ≤ ⌊((d0.bottom - H : Int) : ℚ) * scale_v⌋ := by
    rcases le_or_lt d0.bottom H with h | h
    · exact Or.inl h
    · exact Or.inr (by rw [hsv]; exact floor_scale_nonneg _ _ _ (by omega) (by omega) (by omega))
  have G1 : ⌊((-d0.left : Int) : ℚ) * scale_h⌋ < s0.right - s0.left ∨
      d0.right - d0.left ≤ -d0.left := by
    rcases lt_or_le (⌊((-d0.left : Int) : ℚ) * scale_h⌋) (s0.right - s0.left) with h | h
    · exact Or.inl h
    · exact Or.inr (le_floor_scale (-d0.left) (s0.right - s0.left)
        (d0.right - d0.left) (by omega) (by omega) (by rw [hsh] at h; exact h))
  have G12 : ⌊((-d0.left : Int) : ℚ) * scale_h⌋ +
        ⌊((d0.right - W : Int) : ℚ) * scale_h⌋ < s0.right - s0.left ∨
      d0.right - d0.left ≤ -d0.left + (d0.right - W) := by
    rcases lt_or_le (⌊((-d0.left : Int) : ℚ) * scale_h⌋ +
        ⌊((d0.right - W : Int) : ℚ) * scale_h⌋) (s0.right - s0.left) with h | h
    · exact Or.inl h
    · exact Or.inr (le_floor_scale_pair (-d0.left) (d0.right - W)
        (s0.right - s0.left) (d0.right - d0.left) (by omega) (by omega)
        (by rw [hsh] at h; exact h))
  have G2 : ⌊((d0.right - W : Int) : ℚ) * scale_h⌋ < s0.right - s0.left ∨
      d0.right - d0.left ≤ d0.right - W := by
    rcases lt_or_le (⌊((d0.right - W : Int) : ℚ) * scale_h⌋) (s0.right - s0.left) with h | h
    · exact Or.inl h
    · exact Or.inr (le_floor_scale (d0.right - W) (s0.right - s0.left)
        (d0.right - d0.left) (by omega) (by omega) (by rw [hsh] at h; exact h))
  have G3 : ⌊((-d0.top : Int) : ℚ) * scale_v⌋ < s0.bottom - s0.top ∨
      d0.bottom - d0.top ≤ -d0.top := by
    rcases lt_or_le (⌊((-d0.top : Int) : ℚ) * scale_v⌋) (s0.bottom - s0.top) with h | h
    · exact Or.inl h
    · exact Or.inr (le_floor_scale (-d0.top) (s0.bottom - s0.top)
        (d0.bottom - d0.top) (by omega) (by omega) (by rw [hsv] at h; exact h))
  have G34 : ⌊((-d0.top : Int) : ℚ) * scale_v⌋ +
        ⌊((d0.bottom - H : Int) : ℚ) * scale_v⌋ < s0.bottom - s0.top ∨
      d0.bottom - d0.top ≤ -d0.top + (d0.bottom - H) := by
    rcases lt_or_le (⌊((-d0.top : Int) : ℚ) * scale_v⌋ +
        ⌊((d0.bottom - H : Int) : ℚ) * scale_v⌋) (s0.bottom - s0.top) with h | h
    · exact Or.inl h
    · exact Or.inr (le_floor_scale_pair (-d0.top) (d0.bottom - H)
        (s0.bottom - s0.top) (d0.bottom - d0.top) (by omega) (by omega)
        (by rw [hsv] at h; exact h))
  have G4 : ⌊((d0.bottom - H : Int) : ℚ) * scale_v⌋ < s0.bottom - s0.top ∨
      d0.bottom - d0.top ≤ d0.bottom - H := by
    rcases lt_or_le (⌊((d0.bottom - H : Int) : ℚ) * scale_v⌋) (s0.bottom - s0.top) with h | h
    · exact Or.inl h
    · exact Or.inr (le_floor_scale (d0.bottom - H) (s0.bottom - s0.top)
        (d0.bottom - d0.top) (by omega) (by omega) (by rw [hsv] at h; exact h))
  unfold clipRot180 clipRot180Right clipRot180Top clipRot180Bottom
  dsimp only
  set D1 := ⌊((-d0.left : Int) : ℚ) * scale_h⌋ with hD1
  set D2 := ⌊((d0.right - W : Int) : ℚ) * scale_h⌋ with hD2
  set D3 := ⌊((-d0.top : Int) : ℚ) * scale_v⌋ with hD3
  set D4 := ⌊((d0.bottom - H : Int) : ℚ) * scale_v⌋ with hD4
  clear_value D1 D2 D3 D4
  clear hD1 hD2 hD3 hD4 hsh hsv
  split_ifs <;> (simp only [dstClamped, srcWithin]; omega)

/-! ## Claim theorems -/

/-- C4: for every view transform ordinal in 0..7 and every output
transform ordinal in 0..3, `convert_transform_to_rot` returns one of
exactly the four hardware rotations; moreover every angle bit pattern
without a `case` label in the switch maps to rotation 0 (total, never
fatal). -/
theorem rotation_resolver_total :
    (∀ view_transform output_transform : Nat,
      view_transform < 8 → output_transform < 4 →
      convert_transform_to_rot view_transform output_transform ∈
        [G2dRotation.rot0, G2dRotation.rot90, G2dRotation.rot180,
         G2dRotation.rot270]) ∧
    (∀ angle : Nat, angle ∉ knownAngleValues →
      g2d_rot_of_angle angle = G2dRotation.rot0) := by
  constructor
  · intro v o hv ho
    interval_cases v <;> interval_cases o <;> decide
  · intro a ha
    simp only [knownAngleValues, List.mem_cons, List.not_mem_nil, or_false,
      not_or] at ha
    obtain ⟨h1, h2, h3, h4, h5, h6, h7⟩ := ha
    simp [g2d_rot_of_angle, h1, h2, h3, h4, h5, h6, h7]

/-- Witness for `rotation_resolver_total` at concrete inputs. -/
theorem rotation_resolver_total_witness :
    convert_transform_to_rot 1 3 ∈
      [G2dRotation.rot0, G2dRotation.rot90, G2dRotation.rot180,
       G2dRotation.rot270] ∧
    g2d_rot_of_angle 0x11 = G2dRotation.rot0 :=
  ⟨rotation_resolver_total.1 1 3 (by decide) (by decide),
   rotation_resolver_total.2 0x11 (by decide)⟩

/-- C6: for every rotation value, if the destination rectangle already
lies fully inside `[0,W) × [0,H)` (`0 ≤ left`, `right ≤ W`, `0 ≤ top`,
`bottom ≤ H`), `g2d_clip_rects` leaves both rectangles unchanged. -/
theorem clip_rects_idempotent (transform : G2dRotation) (src dst : G2dRect)
    (W H : Int) (h1 : 0 ≤ dst.left) (h2 : dst.right ≤ W) (h3 : 0 ≤ dst.top)
    (h4 : dst.bottom ≤ H) :
    g2d_clip_rects transform src dst W H = (src, dst) := by
  have hl : ¬dst.left < 0 := by omega
  have hr : ¬dst.right > W := by omega
  have ht : ¬dst.top < 0 := by omega
  have hb : ¬dst.bottom > H := by omega
  cases transform <;>
    simp [g2d_clip_rects, clipRot0, clipRot0Right, clipRot0Top, clipRot0Bottom,
      clipRot270, clipRot270Bottom, clipRot270Top, clipRot270Right,
      clipRot90, clipRot90Top, clipRot90Bottom, clipRot90Right,
      clipRot180, clipRot180Right, clipRot180Top, clipRot180Bottom,
      hl, hr, ht, hb]

/-- Witness for `clip_rects_idempotent` at a concrete in-bounds input. -/
theorem clip_rects_idempotent_witness :
    g2d_clip_rects .rot90 ⟨1, 2, 30, 40⟩ ⟨5, 6, 70, 80⟩ 100 100 =
      (⟨1, 2, 30, 40⟩, ⟨5, 6, 70, 80⟩) :=
  clip_rects_idempotent .rot90 ⟨1, 2, 30, 40⟩ ⟨5, 6, 70, 80⟩ 100 100
    (by decide) (by decide) (by decide) (by decide)

/-- C7: with rotation 0, destination rectangle (-10,-10,90,90), bounds
80×80 and source rectangle (0,0,100,100), `g2d_clip_rects` produces
destination (0,0,80,80) and source (10,10,90,90). -/
theorem clip_rects_concrete_case :
    g2d_clip_rects .rot0 ⟨0, 0, 100, 100⟩ ⟨-10, -10, 90, 90⟩ 80 80 =
      (⟨10, 10, 90, 90⟩, ⟨0, 0, 80, 80⟩) := by
  norm_num [g2d_clip_rects, clipRot0, clipRot0Right, clipRot0Top, clipRot0Bottom]

/-- C8: when `(boundingbox ∩ damage) − clip` is empty, `draw_view` does
nothing at all: no descriptor refresh, no acquire-fence wait, no
capability toggles and no draw calls. -/
theorem draw_view_empty_repaint_skips (i : DrawViewInput) (damage : Region)
    (h : (i.boundingbox ∩ damage) \ i.clip = ∅) :
    draw_view i damage = [] := by
  simp [draw_view, h]

/-- Witness for `draw_view_empty_repaint_skips` at a concrete input. -/
theorem draw_view_empty_repaint_skips_witness :
    draw_view ⟨∅, ∅, 8, 8, false, ∅, ∅,
      ⟨true, false, true, 8, 8, -1, true, false, 0⟩,
      cexView, cexSurface, cexOutput, cexEdges, fun _ => []⟩ {(0, 0)} = [] :=
  draw_view_empty_repaint_skips _ _ (by decide)

/-- C9: once the temporary buffer allocation of
`g2d_renderer_read_pixels` succeeds, the buffer is freed exactly once on
every path; on blit failure the call returns -1 without copying; on
success it returns 0 and copies exactly
`width * height * bytes_per_pixel` bytes after `g2d_finish`. -/
theorem read_pixels_releases_buffer (i : ReadPixelsInput) (B : Int)
    (hfmt : i.format_ok = true) (halloc : i.alloc_ok = true)
    (hbpp : i.bpp_bits = 8 * B) :
    (g2d_renderer_read_pixels i).2.count .freeBuf = 1 ∧
    (i.blit_ok = false → (g2d_renderer_read_pixels i).1 = -1 ∧
      ∀ b : Int, ReadPixelsEvent.memcpyOut b ∉ (g2d_renderer_read_pixels i).2) ∧
    (i.blit_ok = true → (g2d_renderer_read_pixels i).1 = 0 ∧
      ∃ l1 l2, (g2d_renderer_read_pixels i).2 =
          l1 ++ ReadPixelsEvent.memcpyOut (i.width * i.height * B) :: l2 ∧
        ReadPixelsEvent.finish ∈ l1) := by
  have htdiv : Int.tdiv (i.width * i.height * i.bpp_bits) 8 =
      i.width * i.height * B := by
    rw [hbpp, show i.width * i.height * (8 * B) = 8 * (i.width * i.height * B) by
      ring]
    exact Int.mul_tdiv_cancel_left _ (by norm_num)
  refine ⟨?_, ?_, ?_⟩
  · cases hblit : i.blit_ok <;>
      simp [g2d_renderer_read_pixels, hfmt, halloc, hblit, List.count_cons]
  · intro hblit
    refine ⟨?_, fun b => ?_⟩ <;>
      simp [g2d_renderer_read_pixels, hfmt, halloc, hblit]
  · intro hblit
    refine ⟨by simp [g2d_renderer_read_pixels, hfmt, halloc, hblit], ?_⟩
    refine ⟨[.allocBuf (i.width * i.height * 4),
      .blitVFlip ⟨i.x, i.y, i.x + i.width, i.y + i.height⟩ ⟨0, 0, i.width, i.height⟩,
      .finish], [.freeBuf], ?_, by simp⟩
    simp [g2d_renderer_read_pixels, hfmt, halloc, hblit, htdiv]

/-- Witness for `read_pixels_releases_buffer` at a concrete input. -/
theorem read_pixels_releases_buffer_witness :
    (g2d_renderer_read_pixels ⟨true, true, true, 0, 0, 4, 4, 32⟩).2.count
        .freeBuf = 1 ∧
    ((true : Bool) = false → (g2d_renderer_read_pixels
        ⟨true, true, true, 0, 0, 4, 4, 32⟩).1 = -1 ∧
      ∀ b : Int, ReadPixelsEvent.memcpyOut b ∉
        (g2d_renderer_read_pixels ⟨true, true, true, 0, 0, 4, 4, 32⟩).2) ∧
    ((true : Bool) = true → (g2d_renderer_read_pixels
        ⟨true, true, true, 0, 0, 4, 4, 32⟩).1 = 0 ∧
      ∃ l1 l2, (g2d_renderer_read_pixels ⟨true, true, true, 0, 0, 4, 4, 32⟩).2 =
          l1 ++ ReadPixelsEvent.memcpyOut ((4 : Int) * 4 * 4) :: l2 ∧
        ReadPixelsEvent.finish ∈ l1) :=
  read_pixels_releases_buffer ⟨true, true, true, 0, 0, 4, 4, 32⟩ 4 rfl rfl
    (by norm_num)

/-- C10: `repaint_region` issues no hardware call when the surface has
no attached buffer, when the view's transformed bounding box has no
rectangles, or when a non-solid-clear surface's source hardware surface
has non-positive width or height. -/
theorem repaint_region_guard (ev : ViewState) (gs : SurfaceState)
    (out : OutputParams) (region surf_region : List PixBox)
    (edges : PixBox → PixBox → List (ℚ × ℚ))
    (h : gs.attached = false ∨ ev.bounding_rects = [] ∨
         (gs.solid_clear = false ∧
           (gs.surface_width ≤ 0 ∨ gs.surface_height ≤ 0))) :
    repaint_region ev gs out region surf_region edges = [] := by
  unfold repaint_region
  by_cases hA : ev.alpha < 1
  · simp [hA]
  · rcases h with h | h | ⟨h1, h2⟩
    · by_cases hB : ¬gs.solid_clear = true ∧
          (gs.surface_width ≤ 0 ∨ gs.surface_height ≤ 0)
      · simp [hA, hB]
      · simp [hA, hB]
        intro _ hAtt _
        exact absurd hAtt (by simp [h])
    · by_cases hB : ¬gs.solid_clear = true ∧
          (gs.surface_width ≤ 0 ∨ gs.surface_height ≤ 0)
      · simp [hA, hB]
      · simp [hA, hB]
        intro _ _ hbr
        exact absurd h hbr
    · have hB : ¬gs.solid_clear = true ∧
          (gs.surface_width ≤ 0 ∨ gs.surface_height ≤ 0) := ⟨by simp [h1], h2⟩
      simp [hA, hB]

/-- Witness for `repaint_region_guard` with a detached surface. -/
theorem repaint_region_guard_witness :
    repaint_region cexView { cexSurface with attached := false } cexOutput
      [⟨0, 0, 8, 8⟩] [⟨0, 0, 8, 8⟩] cexEdges = [] :=
  repaint_region_guard _ _ _ _ _ _ (Or.inl rfl)

end G2d

namespace G2d

/-- C1 as stated is false at a concrete input: with damage D1 = {(0,0)},
D2 = {(1,0)}, D3 = {(2,0)} on frames 1-3 and none on frame 4, the
accumulated damage used for frame 4's repaint is not D2 ∪ D3 — the slot
holding D1 is only evicted by frame 4's rotate, which runs after the
ring union is read, so D1 is still included. -/
theorem damage_ring_frame4_counterexample :
    totalDamageAt (scenarioDamage {(0, 0)} {(1, 0)} {(2, 0)}) 4 ≠
      ({(1, 0)} ∪ {(2, 0)} : Region) := by decide

/-- C1 (amended): the accumulated damage at frame 3's repaint is
D1 ∪ D2 ∪ D3, and at frame 4 (no new damage) it is still D1 ∪ D2 ∪ D3:
a pixel damaged at frame F is included in the accumulated union at
frames F, F+1, F+2 and F+3, and (with no re-damage) is dropped from
frame F+4 on. -/
theorem damage_ring_accumulation (D1 D2 D3 : Region) (d : Nat → Region)
    (p : Int × Int) (F k : Nat) (hF : 1 ≤ F) :
    (totalDamageAt (scenarioDamage D1 D2 D3) 3 = D1 ∪ D2 ∪ D3 ∧
     totalDamageAt (scenarioDamage D1 D2 D3) 4 = D1 ∪ D2 ∪ D3) ∧
    (p ∈ d F → F ≤ k → k ≤ F + 3 → p ∈ totalDamageAt d k) ∧
    ((∀ j, F + 1 ≤ j → j ≤ F + 4 → p ∉ d j) → p ∉ totalDamageAt d (F + 4)) := by
  refine ⟨⟨?_, ?_⟩, ?_, ?_⟩
  · rw [show (3 : Nat) = 2 + 1 from rfl, totalDamageAt_closed]
    simp only [scenarioDamage, dTrunc]
    norm_num
    ext q; simp [Finset.mem_union]; tauto
  · rw [show (4 : Nat) = 3 + 1 from rfl, totalDamageAt_closed]
    simp only [scenarioDamage, dTrunc]
    norm_num
    ext q; simp [Finset.mem_union]; tauto
  · intro hp hk1 hk2
    obtain ⟨m, rfl⟩ : ∃ m, k = m + 1 := ⟨k - 1, by omega⟩
    rw [totalDamageAt_closed]
    simp only [Finset.mem_union]
    have hcases : F = m + 1 ∨ F = m ∨ F = m - 1 ∨ F = m - 2 := by omega
    rcases hcases with h | h | h | h
    · subst h; exact Or.inl hp
    · refine Or.inr (Or.inl ?_)
      rw [← h, dTrunc, if_neg (by omega)]; exact hp
    · refine Or.inr (Or.inr (Or.inl ?_))
      rw [← h, dTrunc, if_neg (by omega)]; exact hp
    · refine Or.inr (Or.inr (Or.inr ?_))
      rw [← h, dTrunc, if_neg (by omega)]; exact hp
  · intro hnone
    rw [show F + 4 = (F + 3) + 1 from by omega, totalDamageAt_closed]
    simp only [Finset.mem_union, not_or]
    refine ⟨hnone (F + 3 + 1) (by omega) (by omega), ?_, ?_, ?_⟩
    · rw [dTrunc, if_neg (by omega)]
      exact hnone (F + 3) (by omega) (by omega)
    · rw [show F + 3 - 1 = F + 2 from by omega, dTrunc, if_neg (by omega)]
      exact hnone (F + 2) (by omega) (by omega)
    · rw [show F + 3 - 2 = F + 1 from by omega, dTrunc, if_neg (by omega)]
      exact hnone (F + 1) (by omega) (by omega)

/-- Witness for `damage_ring_accumulation` at concrete regions, pixel
(0,0), frame F = 1 and repaint frame k = 1. -/
theorem damage_ring_accumulation_witness :
    (totalDamageAt (scenarioDamage {(0, 0)} {(1, 0)} {(2, 0)}) 3 =
        ({(0, 0)} : Region) ∪ {(1, 0)} ∪ {(2, 0)} ∧
     totalDamageAt (scenarioDamage {(0, 0)} {(1, 0)} {(2, 0)}) 4 =
        ({(0, 0)} : Region) ∪ {(1, 0)} ∪ {(2, 0)}) ∧
    ((0, 0) ∈ scenarioDamage {(0, 0)} {(1, 0)} {(2, 0)} 1 → 1 ≤ 1 → 1 ≤ 1 + 3 →
      (0, 0) ∈ totalDamageAt (scenarioDamage {(0, 0)} {(1, 0)} {(2, 0)}) 1) ∧
    ((∀ j, 1 + 1 ≤ j → j ≤ 1 + 4 →
        (0, 0) ∉ scenarioDamage {(0, 0)} {(1, 0)} {(2, 0)} j) →
      (0, 0) ∉ totalDamageAt (scenarioDamage {(0, 0)} {(1, 0)} {(2, 0)}) (1 + 4)) :=
  damage_ring_accumulation _ _ _ _ _ 1 1 (by decide)

end G2d

namespace G2d

/-- C3 as stated is false at a concrete input: a view with opacity 1/2
and transform handling disabled produces zero draw calls (the alpha
skip at the top of `repaint_region` does not consult the transform
flag), contradicting "opacity = 0.5 with transform.enabled = false
yields draw calls with global-alpha enabled"; the identical input with
opacity 1 does produce draw calls. -/
theorem repaint_region_alpha_counterexample :
    cexView.alpha = 1/2 ∧ cexView.transform_enabled = false ∧
    repaint_region cexView cexSurface cexOutput [⟨0, 0, 8, 8⟩] [⟨0, 0, 8, 8⟩]
      cexEdges = [] ∧
    repaint_region { cexView with alpha := 1 } cexSurface cexOutput
      [⟨0, 0, 8, 8⟩] [⟨0, 0, 8, 8⟩] cexEdges ≠ [] := by
  refine ⟨rfl, rfl, ?_, ?_⟩
  · norm_num [repaint_region, cexView]
  · norm_num [repaint_region, cexView, cexSurface, cexOutput, cexEdges,
      repaintOuter, repaintInner, pairClipRect, clipRectOfEdges,
      g2d_int_from_double, wl_fixed_to_int, wl_fixed_from_double,
      convert_size_by_view_transform, calculate_rect_with_transform,
      convert_transform_to_rot, g2d_rot_of_angle, g2d_clip_rects,
      clipRot0, clipRot0Right, clipRot0Top, clipRot0Bottom,
      G2D_ROTATION_ANGLE_0]
    decide

/-- C3 (amended): `repaint_region` issues zero draw calls for every
view with opacity < 1, whatever the transform flag and the rest of the
input — the alpha<1 skip is unconditional, and with it no global-alpha
blit is ever issued by this function. -/
theorem repaint_region_alpha_skip (ev : ViewState) (gs : SurfaceState)
    (out : OutputParams) (region surf_region : List PixBox)
    (edges : PixBox → PixBox → List (ℚ × ℚ)) (h : ev.alpha < 1) :
    repaint_region ev gs out region surf_region edges = [] := by
  simp [repaint_region, h]

/-- Witness for `repaint_region_alpha_skip` at a concrete input with
transform handling disabled. -/
theorem repaint_region_alpha_skip_witness :
    repaint_region { cexView with alpha := 0 } cexSurface cexOutput
      [⟨0, 0, 8, 8⟩] [⟨0, 0, 8, 8⟩] cexEdges = [] :=
  repaint_region_alpha_skip _ _ _ _ _ _ (by decide)

/-- C5 as stated is false at a concrete input: when the first damage
rectangle produces an empty scissor rectangle (3 vertices sharing one
x-coordinate), `repaint_region` takes the degenerate-scissor `return`,
so the second damage rectangle — which on its own produces draw calls —
is never drawn: the degenerate pair is not "skipped as a single draw
unit only". -/
theorem repaint_region_degenerate_abort_counterexample :
    repaint_region { cexView with alpha := 1 } cexSurface cexOutput
      [cexBox1, cexBox2] [⟨0, 0, 8, 8⟩] cexEdgesDegen = [] ∧
    repaint_region { cexView with alpha := 1 } cexSurface cexOutput
      [cexBox2] [⟨0, 0, 8, 8⟩] cexEdgesDegen ≠ [] := by
  constructor <;>
    (norm_num [repaint_region, cexView, cexSurface, cexOutput, cexEdgesDegen,
      cexBox1, cexBox2,
      repaintOuter, repaintInner, pairClipRect, clipRectOfEdges,
      g2d_int_from_double, wl_fixed_to_int, wl_fixed_from_double,
      convert_size_by_view_transform, calculate_rect_with_transform,
      convert_transform_to_rot, g2d_rot_of_angle, g2d_clip_rects,
      clipRot0, clipRot0Right, clipRot0Top, clipRot0Bottom,
      G2D_ROTATION_ANGLE_0]
     try decide)

/-- C5 (amended): inside one `repaint_region` pass, a damage-rect ×
surface-rect pair whose clipped polygon has fewer than 3 vertices is
silently skipped and iteration continues with the remaining pairs; but
a pair whose scissor rectangle is empty/inverted after the output
transform makes `repaint_region` return at once, abandoning all
remaining pairs; neither case propagates an error. -/
theorem repaint_region_degenerate_unit_handling (gs : SurfaceState)
    (out : OutputParams) (edges : PixBox → PixBox → List (ℚ × ℚ))
    (srcRect dstrect : G2dRect) (rect surf_rect : PixBox)
    (rest region_rest : List PixBox) :
    ((edges rect surf_rect).length < 3 →
      repaintInner gs out edges srcRect dstrect rect (surf_rect :: rest) =
        repaintInner gs out edges srcRect dstrect rect rest) ∧
    (¬(edges rect surf_rect).length < 3 →
      ((pairClipRect out (edges rect surf_rect)).left ≥
         (pairClipRect out (edges rect surf_rect)).right ∨
       (pairClipRect out (edges rect surf_rect)).top ≥
         (pairClipRect out (edges rect surf_rect)).bottom) →
      repaintInner gs out edges srcRect dstrect rect (surf_rect :: rest) =
        ([], true) ∧
      repaintOuter gs out edges srcRect dstrect (surf_rect :: rest)
        (rect :: region_rest) = []) := by
  constructor
  · intro h
    simp [repaintInner, h]
  · intro h1 h2
    have hi : repaintInner gs out edges srcRect dstrect rect
        (surf_rect :: rest) = ([], true) := by
      simp [repaintInner, h1, h2]
    exact ⟨hi, by simp [repaintOuter, hi]⟩

/-- Witness for `repaint_region_degenerate_unit_handling`: an oracle
with an empty polygon exercises the skip-and-continue case, and an
oracle whose polygon collapses to a point exercises the abort case. -/
theorem repaint_region_degenerate_unit_handling_witness :
    (repaintInner cexSurface cexOutput (fun _ _ => []) ⟨0, 0, 8, 8⟩
        ⟨0, 0, 8, 8⟩ cexBox1 [cexBox1] =
      repaintInner cexSurface cexOutput (fun _ _ => []) ⟨0, 0, 8, 8⟩
        ⟨0, 0, 8, 8⟩ cexBox1 []) ∧
    (repaintInner cexSurface cexOutput (fun _ _ => [(0, 0), (0, 0), (0, 0)])
        ⟨0, 0, 8, 8⟩ ⟨0, 0, 8, 8⟩ cexBox1 [cexBox1] = ([], true) ∧
      repaintOuter cexSurface cexOutput (fun _ _ => [(0, 0), (0, 0), (0, 0)])
        ⟨0, 0, 8, 8⟩ ⟨0, 0, 8, 8⟩ [cexBox1] [cexBox1, cexBox2] = []) :=
  ⟨(repaint_region_degenerate_unit_handling cexSurface cexOutput
      (fun _ _ => []) ⟨0, 0, 8, 8⟩ ⟨0, 0, 8, 8⟩ cexBox1 cexBox1 [] []).1
      (by decide),
   (repaint_region_degenerate_unit_handling cexSurface cexOutput
      (fun _ _ => [(0, 0), (0, 0), (0, 0)]) ⟨0, 0, 8, 8⟩ ⟨0, 0, 8, 8⟩
      cexBox1 cexBox1 [] [cexBox2]).2
      (by decide)
      (Or.inl (le_of_eq (by
        simp [pairClipRect, clipRectOfEdges, g2d_int_from_double,
          wl_fixed_from_double, wl_fixed_to_int, cexOutput,
          calculate_rect_with_transform])))⟩

end G2d

namespace G2d

/-- C2 as stated is false at a concrete input: with rotation 270, source
rectangle (-100,0,5,10) (well-formed extents), destination rectangle
(10,0,200,105) and bounds 100×50, the second clamp's early `return`
(`srcRect->right < 0`) fires before the right edge is clamped, leaving
the nonempty destination rectangle (10,0,200,50), which contains the
pixel (150,25) outside [0,100)×[0,50). -/
theorem clip_rects_unbounded_counterexample :
    ((150, 25) : Int × Int) ∈
      rectPixelSet (g2d_clip_rects .rot270 ⟨-100, 0, 5, 10⟩
        ⟨10, 0, 200, 105⟩ 100 50).2 ∧
    ((150, 25) : Int × Int) ∉ (Set.Ico (0 : Int) 100 ×ˢ Set.Ico (0 : Int) 50) := by
  have h : (g2d_clip_rects .rot270 ⟨-100, 0, 5, 10⟩ ⟨10, 0, 200, 105⟩ 100 50).2 =
      ⟨10, 0, 200, 50⟩ := by
    norm_num [g2d_clip_rects, clipRot270, clipRot270Bottom, clipRot270Top,
      clipRot270Right]
  rw [h]
  constructor
  · simp [rectPixelSet]
  · simp [Set.mem_prod]

/-- C2 (amended): for each of the four hardware rotations, if the source
rectangle has non-negative coordinates and positive extents and the
destination rectangle has positive extents, then after `g2d_clip_rects`
the destination rectangle's pixels all lie in `[0,W) × [0,H)` and the
adjusted source rectangle's area is at most the input source area. -/
theorem g2d_clip_rects_clamp (transform : G2dRotation) (s0 d0 : G2dRect)
    (W H : Int)
    (hrot : transform = .rot0 ∨ transform = .rot90 ∨ transform = .rot180 ∨
      transform = .rot270)
    (hsl : 0 ≤ s0.left) (hsr : s0.left < s0.right)
    (hst : 0 ≤ s0.top) (hsb : s0.top < s0.bottom)
    (hdw : d0.left < d0.right) (hdh : d0.top < d0.bottom) :
    rectPixelSet (g2d_clip_rects transform s0 d0 W H).2 ⊆
      Set.Ico 0 W ×ˢ Set.Ico 0 H ∧
    rectArea (g2d_clip_rects transform s0 d0 W H).1 ≤ rectArea s0 := by
  have key : dstClamped (g2d_clip_rects transform s0 d0 W H).2 W H ∧
      srcWithin s0 (g2d_clip_rects transform s0 d0 W H).1 := by
    rcases hrot with h | h | h | h <;> subst h
    · have e : g2d_clip_rects .rot0 s0 d0 W H =
          clipRot0 s0 d0 W H
            (((s0.right - s0.left : Int) : ℚ) / ((d0.right - d0.left : Int) : ℚ))
            (((s0.bottom - s0.top : Int) : ℚ) / ((d0.bottom - d0.top : Int) : ℚ)) := by
        simp [g2d_clip_rects]
      rw [e]
      exact clipRot0_spec s0 d0 W H hsl hsr hst hsb hdw hdh _ _ rfl rfl
    · have e : g2d_clip_rects .rot90 s0 d0 W H =
          clipRot90 s0 d0 W H
            (((s0.bottom - s0.top : Int) : ℚ) / ((d0.right - d0.left : Int) : ℚ))
            (((s0.right - s0.left : Int) : ℚ) / ((d0.bottom - d0.top : Int) : ℚ)) := by
        simp [g2d_clip_rects]
      rw [e]
      exact clipRot90_spec s0 d0 W H hsl hsr hst hsb hdw hdh _ _ rfl rfl
    · have e : g2d_clip_rects .rot180 s0 d0 W H =
          clipRot180 s0 d0 W H
            (((s0.right - s0.left : Int) : ℚ) / ((d0.right - d0.left : Int) : ℚ))
            (((s0.bottom - s0.top : Int) : ℚ) / ((d0.bottom - d0.top : Int) : ℚ)) := by
        simp [g2d_clip_rects]
      rw [e]
      exact clipRot180_spec s0 d0 W H hsl hsr hst hsb hdw hdh _ _ rfl rfl
    · have e : g2d_clip_rects .rot270 s0 d0 W H =
          clipRot270 s0 d0 W H
            (((s0.bottom - s0.top : Int) : ℚ) / ((d0.right - d0.left : Int) : ℚ))
            (((s0.right - s0.left : Int) : ℚ) / ((d0.bottom - d0.top : Int) : ℚ)) := by
        simp [g2d_clip_rects]
      rw [e]
      exact clipRot270_spec s0 d0 W H hsl hsr hst hsb hdw hdh _ _ rfl rfl
  exact ⟨dstClamped_subset _ W H key.1, srcWithin_area _ _ key.2⟩

/-- Witness for `g2d_clip_rects_clamp` at the concrete rotation-0 input
of the clamp scenario. -/
theorem g2d_clip_rects_clamp_witness :
    rectPixelSet (g2d_clip_rects .rot0 ⟨0, 0, 100, 100⟩
        ⟨-10, -10, 90, 90⟩ 80 80).2 ⊆ Set.Ico 0 80 ×ˢ Set.Ico 0 80 ∧
    rectArea (g2d_clip_rects .rot0 ⟨0, 0, 100, 100⟩
        ⟨-10, -10, 90, 90⟩ 80 80).1 ≤ rectArea ⟨0, 0, 100, 100⟩ :=
  g2d_clip_rects_clamp .rot0 ⟨0, 0, 100, 100⟩ ⟨-10, -10, 90, 90⟩ 80 80
    (Or.inl rfl) (by decide) (by decide) (by decide) (by decide) (by decide)
    (by decide)

end G2d
